import Mathlib

/-!
# threeJS-physics: the composition script `src/script.js`

A shallow embedding of the script.  JavaScript objects live in two heaps (meshes, bodies) and
are named by references (natural numbers, in allocation order); the module-level globals
(`scene`, `world`, `updatedValues`, `sound`,
`sizes`, `camera.aspect`, `oldElapsedTime`, the renderer settings) are fields of one record
`App`.  Numbers are exact rationals, and the spawn-position expressions, whose rounding decides
their range, are rounded to double precision after each operation.  Every call that crosses
the library boundary is also written to `App.trace`, so that the order of effects can be
stated.

Host inputs are explicit: the results of `Math.random()` are the stream `App.random`, read in
call order; the clock reading and the physics engine's work are arguments of `tick`; the window
metrics are arguments of `startup` and `onResize`.
-/

namespace ThreePhysics

/-- A three-component vector: `THREE.Vector3`, `CANNON.Vec3`, or a plain `{x, y, z}` object. -/
structure Vec3 where
  x : Rat
  y : Rat
  z : Rat
deriving DecidableEq

/-- A quaternion `(x, y, z, w)`. -/
structure Quat where
  x : Rat
  y : Rat
  z : Rat
  w : Rat
deriving DecidableEq

/-- The zero vector, the default of a fresh `position`. -/
def Vec3.zero : Vec3 := ⟨0, 0, 0⟩

/-- The vector of ones, the default `scale` of a fresh mesh. -/
def Vec3.one : Vec3 := ⟨1, 1, 1⟩

/-- The identity rotation, the default `quaternion` of a fresh mesh or body. -/
def Quat.identity : Quat := ⟨0, 0, 0, 1⟩

/-- The size of `boxGeometry = new THREE.BoxGeometry(1, 1, 1)`. -/
def boxGeometry : Vec3 := ⟨1, 1, 1⟩

/-- A `THREE.Mesh(boxGeometry, boxMaterial)`: the fields the script reads or writes. -/
structure Mesh where
  castShadow : Bool
  scale : Vec3
  position : Vec3
  quaternion : Quat
deriving DecidableEq

/-- A mesh as the constructor leaves it. -/
def Mesh.fresh : Mesh :=
  { castShadow := false, scale := Vec3.one, position := Vec3.zero, quaternion := Quat.identity }

/-- The functions the script registers as event listeners. -/
inductive Listener where
  | playSound
deriving DecidableEq

/-- The two physics materials of the script. -/
inductive Material where
  | floorMaterial
  | ballMaterial
deriving DecidableEq

/-- A collision shape: `CANNON.Plane()` or `CANNON.Box(halfExtents)`. -/
inductive Shape where
  | plane
  | box (halfExtents : Vec3)
deriving DecidableEq

/-- A `CANNON.Body`: construction options, pose, and its list of 'collide' listeners. -/
structure Body where
  mass : Rat
  shape : Shape
  material : Material
  position : Vec3
  quaternion : Quat
  collide : List Listener
deriving DecidableEq

/-- A body as `new CANNON.Body({mass, shape, material})` leaves it. -/
def Body.fresh (mass : Rat) (shape : Shape) (material : Material) : Body :=
  { mass := mass, shape := shape, material := material,
    position := Vec3.zero, quaternion := Quat.identity, collide := [] }

/-- The children the scene can hold: the fixed objects and the box meshes. -/
inductive SceneChild where
  | floor
  | ambientLight
  | directionalLight
  | camera
  | mesh (box : Nat)
deriving DecidableEq

/-- True on box meshes, false on the floor, the lights and the camera. -/
def SceneChild.isBox : SceneChild → Bool
  | SceneChild.mesh _ => true
  | _ => false

/-- An entry `{ box, body }` of `updatedValues`. -/
structure Pair where
  box : Nat
  body : Nat
deriving DecidableEq

/-- The shared `Audio` element: the two properties the script assigns. -/
structure Sound where
  volume : Rat
  currentTime : Rat
deriving DecidableEq

/-- The `sizes` object. -/
structure Sizes where
  width : Rat
  height : Rat
deriving DecidableEq

/-- A call or assignment crossing the library boundary, in the order the script makes them. -/
inductive Effect where
  | sceneAdd (child : SceneChild)
  | sceneRemove (child : SceneChild)
  | worldAdd (body : Nat)
  | worldRemove (body : Nat)
  | addEventListener (body : Nat) (listener : Listener)
  | removeEventListener (body : Nat) (listener : Listener)
  | registryPush (entry : Pair)
  | registryClear
  | worldStep (dt : Rat) (timeSinceLastCalled : Rat) (maxSubSteps : Nat)
  | controlsUpdate
  | render
  | requestAnimationFrame
  | soundVolume (v : Rat)
  | soundCurrentTime (t : Rat)
  | soundPlay
  | updateProjectionMatrix
  | setSize (width : Rat) (height : Rat)
  | setPixelRatio (ratio : Rat)
deriving DecidableEq

/-- The collision record handed to a 'collide' listener: `impact` is the value of
`collision.contact.getImpactVelocityAlongNormal()`. -/
structure Collision where
  impact : Rat

/-- A 'collide' event the engine dispatches on the body `target` during a step. -/
structure CollideEvent where
  target : Nat
  collision : Collision

/-- The physics library seen from the script: what one `world.step(dt, delta, maxSubSteps)` does
to the pose of each body of the world, and which 'collide' events it dispatches.  Both are
arbitrary functions of the call's arguments and of the world. -/
structure Engine where
  integrate : Rat → Rat → Nat → List Nat → (Nat → Body) → Nat → Vec3 × Quat
  contacts : Rat → Rat → Nat → List Nat → (Nat → Body) → List CollideEvent

/-- The whole application state. -/
structure App where
  /-- The results of the successive `Math.random()` calls. -/
  random : Nat → Rat
  /-- How many `Math.random()` calls have been made. -/
  randomCalls : Nat
  /-- Mesh heap: the meshes allocated so far are `0 .. meshCount - 1`. -/
  meshes : Nat → Mesh
  meshCount : Nat
  /-- Body heap: the bodies allocated so far are `0 .. bodyCount - 1`. -/
  bodies : Nat → Body
  bodyCount : Nat
  /-- The list `scene.children`. -/
  sceneChildren : List SceneChild
  /-- The list `world.bodies`. -/
  worldBodies : List Nat
  /-- The registry `updatedValues`. -/
  updatedValues : List Pair
  sound : Sound
  oldElapsedTime : Rat
  sizes : Sizes
  cameraAspect : Rat
  rendererSize : Sizes
  pixelRatio : Rat
  /-- What the last `renderer.render(scene, camera)` call saw: the scene's children and the
  mesh heap at the time of the call. -/
  frameChildren : List SceneChild
  frame : Nat → Mesh
  /-- Every boundary call made so far, oldest first. -/
  trace : List Effect

/-- The floor body `planeBody` is the first body the script constructs. -/
def planeBody : Nat := 0

/-- Append one effect to the trace. -/
def log (e : Effect) (s : App) : App :=
  { s with trace := s.trace ++ [e] }

/-- One call of `Math.random()`: the next value of the stream. -/
def mathRandom (s : App) : Rat × App :=
  (s.random s.randomCalls, { s with randomCalls := s.randomCalls + 1 })

/-! ## Library boundary -/

/-- Allocation `new THREE.Mesh(boxGeometry, boxMaterial)`: the new reference and the state. -/
def newMesh (s : App) : Nat × App :=
  (s.meshCount,
    { s with meshes := Function.update s.meshes s.meshCount Mesh.fresh,
             meshCount := s.meshCount + 1 })

/-- Allocation `new CANNON.Body({mass, shape, material})`. -/
def newBody (mass : Rat) (shape : Shape) (material : Material) (s : App) : Nat × App :=
  (s.bodyCount,
    { s with bodies := Function.update s.bodies s.bodyCount (Body.fresh mass shape material),
             bodyCount := s.bodyCount + 1 })

/-- In-place update of one mesh. -/
def updateMesh (r : Nat) (f : Mesh → Mesh) (s : App) : App :=
  { s with meshes := Function.update s.meshes r (f (s.meshes r)) }

/-- In-place update of one body. -/
def updateBody (r : Nat) (f : Body → Body) (s : App) : App :=
  { s with bodies := Function.update s.bodies r (f (s.bodies r)) }

/-- The call `scene.add(child)` (three.js `Object3D.add`): a child that already has a parent is
first removed from it, then the child is pushed at the end of `children`. -/
def sceneAdd (child : SceneChild) (s : App) : App :=
  log (Effect.sceneAdd child)
    { s with sceneChildren := s.sceneChildren.erase child ++ [child] }

/-- The call `scene.remove(child)`: splice the child out of `children` when it is there. -/
def sceneRemove (child : SceneChild) (s : App) : App :=
  log (Effect.sceneRemove child)
    { s with sceneChildren := s.sceneChildren.erase child }

/-- The call `world.add(body)` (cannon `World.addBody`): nothing when the body is already in
`world.bodies`, else push at the end. -/
def worldAdd (body : Nat) (s : App) : App :=
  log (Effect.worldAdd body)
    { s with worldBodies :=
        if body ∈ s.worldBodies then s.worldBodies else s.worldBodies ++ [body] }

/-- The call `world.remove(body)`: splice the body out of `world.bodies` when it is there. -/
def worldRemove (body : Nat) (s : App) : App :=
  log (Effect.worldRemove body)
    { s with worldBodies := s.worldBodies.erase body }

/-- The call `body.addEventListener('collide', listener)` (cannon `EventTarget`): push the
listener unless it is already registered. -/
def addEventListener (body : Nat) (listener : Listener) (s : App) : App :=
  log (Effect.addEventListener body listener)
    (updateBody body
      (fun b => { b with collide :=
        if listener ∈ b.collide then b.collide else b.collide ++ [listener] }) s)

/-- The call `body.removeEventListener('collide', listener)`: splice the listener out when it
is registered. -/
def removeEventListener (body : Nat) (listener : Listener) (s : App) : App :=
  log (Effect.removeEventListener body listener)
    (updateBody body (fun b => { b with collide := b.collide.erase listener }) s)

/-! ## The script -/

/-- The listener `playSound`, lines 87-94. -/
def playSound (collision : Collision) (s : App) : App :=
  let collisionStrength := collision.impact
  if collisionStrength > 1.5 then
    let (r, s) := mathRandom s
    let s := log (Effect.soundVolume r) { s with sound := { s.sound with volume := r } }
    let s := log (Effect.soundCurrentTime 0) { s with sound := { s.sound with currentTime := 0 } }
    log Effect.soundPlay s
  else
    s

/-- The function `createBox`, lines 189-211. -/
def createBox (width height depth : Rat) (position : Vec3) (s : App) : App :=
  -- three js
  let (box, s) := newMesh s
  let s := updateMesh box (fun m => { m with castShadow := true }) s
  let s := updateMesh box (fun m => { m with scale := ⟨width, height, depth⟩ }) s
  let s := updateMesh box (fun m => { m with position := position }) s
  let s := sceneAdd (SceneChild.mesh box) s
  -- cannon
  let shape := Shape.box ⟨width / 2, height / 2, depth / 1⟩
  let (body, s) := newBody 1 shape Material.ballMaterial s
  let s := updateBody body (fun b => { b with position := position }) s
  let s := addEventListener body Listener.playSound s
  let s := worldAdd body s
  log (Effect.registryPush { box := box, body := body })
    { s with updatedValues := s.updatedValues ++ [{ box := box, body := body }] }

/-! ## Double-precision arithmetic

JavaScript numbers are IEEE-754 binary64 values.  Where rounding decides a property (the spawn
position) an operation is followed by `roundDouble`; overflow is not modelled, the values
involved stay below 4 in magnitude. -/

/-- Nearest integer, ties to the even one. -/
def roundHalfEven (z : Rat) : Int :=
  let f := ⌊z⌋
  let d := z - f
  if d < 1 / 2 then f else if 1 / 2 < d then f + 1 else if f % 2 = 0 then f else f + 1

/-- Exponent of the last binary place binary64 keeps for a value of the magnitude of `x`: 52
places below its leading bit, and never below the subnormal spacing `2 ^ (-1074)`. -/
def ulpExponent (x : Rat) : Int :=
  max (Int.log 2 |x| - 52) (-1074)

/-- The binary64 result of an operation whose exact result is `x`: round to nearest, ties to
even, on the grid of spacing `2 ^ ulpExponent x`. -/
def roundDouble (x : Rat) : Rat :=
  if x = 0 then 0 else roundHalfEven (x / 2 ^ ulpExponent x) * 2 ^ ulpExponent x

/-- The finite binary64 values: a significand below `2 ^ 53` times a power of two in range. -/
def IsDouble (x : Rat) : Prop :=
  ∃ m k : Int, |m| < 2 ^ 53 ∧ -1074 ≤ k ∧ k ≤ 971 ∧ x = m * 2 ^ k

/-- The arguments of a `createBox` call. -/
structure BoxArgs where
  width : Rat
  height : Rat
  depth : Rat
  position : Vec3

/-- The argument expressions of the call inside `params.createBox`, lines 12-16, evaluated left
to right, each arithmetic operation in double precision. -/
def params.createBoxArgs (s : App) : BoxArgs × App :=
  let (width, s) := mathRandom s
  let (height, s) := mathRandom s
  let (depth, s) := mathRandom s
  let (rx, s) := mathRandom s
  let (rz, s) := mathRandom s
  ({ width := width, height := height, depth := depth,
     position :=
       ⟨roundDouble (roundDouble (rx - 0.5) * 4), 3,
        roundDouble (roundDouble (rz - 0.5) * 4)⟩ },
    s)

/-- The UI action `params.createBox`, lines 11-17. -/
def params.createBox (s : App) : App :=
  let (a, s) := params.createBoxArgs s
  ThreePhysics.createBox a.width a.height a.depth a.position s

/-- The argument expressions of the top-level call, lines 213-217, evaluated left to right,
each arithmetic operation in double precision. -/
def startupCreateBoxArgs (s : App) : BoxArgs × App :=
  let (width, s) := mathRandom s
  let (height, s) := mathRandom s
  let (depth, s) := mathRandom s
  let (rx, s) := mathRandom s
  let (rz, s) := mathRandom s
  ({ width := width, height := height, depth := depth,
     position := ⟨roundDouble (rx - 0.5), 3, roundDouble (rz - 0.5)⟩ }, s)

/-- The body of the loop of `params.reset`, lines 20-22. -/
def params.resetObject (s : App) (object : Pair) : App :=
  let s := removeEventListener object.body Listener.playSound s
  let s := worldRemove object.body s
  sceneRemove (SceneChild.mesh object.box) s

/-- The UI action `params.reset`, lines 18-25. -/
def params.reset (s : App) : App :=
  let s := s.updatedValues.foldl params.resetObject s
  log Effect.registryClear { s with updatedValues := [] }

/-- The resize listener, lines 138-150, for the window metrics at the time of the event. -/
def onResize (innerWidth innerHeight devicePixelRatio : Rat) (s : App) : App :=
  -- Update sizes
  let s := { s with sizes := { s.sizes with width := innerWidth } }
  let s := { s with sizes := { s.sizes with height := innerHeight } }
  -- Update camera
  let s := { s with cameraAspect := s.sizes.width / s.sizes.height }
  let s := log Effect.updateProjectionMatrix s
  -- Update renderer
  let s := log (Effect.setSize s.sizes.width s.sizes.height) { s with rendererSize := s.sizes }
  let ratio := min devicePixelRatio 2
  log (Effect.setPixelRatio ratio) { s with pixelRatio := ratio }

/-- The body of the loop of `tick`, lines 234-235. -/
def tickObject (s : App) (object : Pair) : App :=
  let s := updateMesh object.box (fun m => { m with position := (s.bodies object.body).position }) s
  updateMesh object.box (fun m => { m with quaternion := (s.bodies object.body).quaternion }) s

/-- Dispatch of one 'collide' event: every listener registered on the target is called. -/
def dispatchCollide (s : App) (ev : CollideEvent) : App :=
  (s.bodies ev.target).collide.foldl
    (fun acc l => match l with
      | Listener.playSound => playSound ev.collision acc) s

/-- The call `world.step(dt, timeSinceLastCalled, maxSubSteps)`: the engine moves every body of
the world, then the 'collide' events of the step reach their listeners. -/
def worldStep (engine : Engine) (dt timeSinceLastCalled : Rat) (maxSubSteps : Nat)
    (s : App) : App :=
  let s := log (Effect.worldStep dt timeSinceLastCalled maxSubSteps) s
  let pose := engine.integrate dt timeSinceLastCalled maxSubSteps s.worldBodies s.bodies
  let events := engine.contacts dt timeSinceLastCalled maxSubSteps s.worldBodies s.bodies
  let moved : Nat → Body := fun r =>
    let b := s.bodies r
    if r ∈ s.worldBodies then { b with position := (pose r).1, quaternion := (pose r).2 } else b
  let s := { s with bodies := moved }
  events.foldl dispatchCollide s

/-- The call `renderer.render(scene, camera)`: records what is drawn. -/
def render (s : App) : App :=
  log Effect.render { s with frameChildren := s.sceneChildren, frame := s.meshes }

/-- The function `tick`, lines 225-247; `elapsedTime` is the value `clock.getElapsedTime()`
returns in this call. -/
def tick (elapsedTime : Rat) (engine : Engine) (s : App) : App :=
  let deltaTime := elapsedTime - s.oldElapsedTime
  let s := { s with oldElapsedTime := elapsedTime }
  let s := s.updatedValues.foldl tickObject s
  let s := worldStep engine (1 / 60) deltaTime 3 s
  -- Update controls
  let s := log Effect.controlsUpdate s
  -- Render
  let s := render s
  -- Call tick again on the next frame
  log Effect.requestAnimationFrame s

/-- What the host supplies at load time: the window metrics, the stream of `Math.random()`
results, and the value of `setFromAxisAngle((-1, 0, 0), Math.PI * 0.5)` for the floor. -/
structure Host where
  innerWidth : Rat
  innerHeight : Rat
  devicePixelRatio : Rat
  random : Nat → Rat
  planeQuaternion : Quat

/-- The state before the first statement of the script runs. -/
def blank (host : Host) : App :=
  { random := host.random, randomCalls := 0,
    meshes := fun _ => Mesh.fresh, meshCount := 0,
    bodies := fun _ => Body.fresh 0 Shape.plane Material.floorMaterial, bodyCount := 0,
    sceneChildren := [], worldBodies := [], updatedValues := [],
    sound := { volume := 1, currentTime := 0 },
    oldElapsedTime := 0,
    sizes := { width := 0, height := 0 },
    cameraAspect := 1,
    rendererSize := { width := 0, height := 0 },
    pixelRatio := 1,
    frameChildren := [], frame := fun _ => Mesh.fresh,
    trace := [] }

/-- The top-level statements of the script from line 32 up to the declaration of
`updatedValues`, line 187. -/
def startupScene (host : Host) : App :=
  let s := blank host
  -- Plane
  let (plane, s) := newBody 0 Shape.plane Material.floorMaterial s
  let s := updateBody plane (fun b => { b with quaternion := host.planeQuaternion }) s
  let s := worldAdd plane s
  -- Floor, lights
  let s := sceneAdd SceneChild.floor s
  let s := sceneAdd SceneChild.ambientLight s
  let s := sceneAdd SceneChild.directionalLight s
  -- Sizes
  let s := { s with sizes := { width := host.innerWidth, height := host.innerHeight } }
  -- Camera
  let s := { s with cameraAspect := s.sizes.width / s.sizes.height }
  let s := sceneAdd SceneChild.camera s
  -- Renderer
  let s := log (Effect.setSize s.sizes.width s.sizes.height) { s with rendererSize := s.sizes }
  let s := log (Effect.setPixelRatio (min host.devicePixelRatio 2))
    { s with pixelRatio := min host.devicePixelRatio 2 }
  { s with updatedValues := [] }

/-- The top-level statements of the script, lines 32-223, up to (not including) the first
`tick()` call of line 249. -/
def startup (host : Host) : App :=
  let s := startupScene host
  -- first box
  let (a, s) := startupCreateBoxArgs s
  let s := createBox a.width a.height a.depth a.position s
  { s with oldElapsedTime := 0 }

/-- The actions that drive the application after startup. -/
inductive Action where
  | spawn
  | reset
  | tick (elapsedTime : Rat) (engine : Engine)
  | resize (innerWidth innerHeight devicePixelRatio : Rat)

/-- The effect of one action. -/
def Action.apply : Action → App → App
  | Action.spawn, s => params.createBox s
  | Action.reset, s => params.reset s
  | Action.tick t e, s => ThreePhysics.tick t e s
  | Action.resize w h dpr, s => onResize w h dpr s

/-- The states reachable from startup by spawn, reset, tick and window resize actions. -/
inductive Reachable : App → Prop where
  | start (host : Host) : Reachable (startup host)
  | step (a : Action) {s : App} (h : Reachable s) : Reachable (a.apply s)

/-- Full extent of a box shape along each axis: twice its half-extents. -/
def Shape.fullExtent : Shape → Vec3
  | Shape.plane => Vec3.zero
  | Shape.box h => ⟨2 * h.x, 2 * h.y, 2 * h.z⟩

/-- Full extent of a box mesh along each axis: its scale applied to `boxGeometry`. -/
def Mesh.fullExtent (m : Mesh) : Vec3 :=
  ⟨m.scale.x * boxGeometry.x, m.scale.y * boxGeometry.y, m.scale.z * boxGeometry.z⟩

/-- A host used to evaluate the script on concrete inputs: an 800 x 600 window with device
pixel ratio 3, and every `Math.random()` call returning 1/4. -/
def sampleHost : Host :=
  { innerWidth := 800, innerHeight := 600, devicePixelRatio := 3,
    random := fun _ => 1 / 4, planeQuaternion := Quat.identity }

/-- The children the script adds to the scene once, in order. -/
def fixedChildren : List SceneChild :=
  [SceneChild.floor, SceneChild.ambientLight, SceneChild.directionalLight, SceneChild.camera]

/-- The arguments of a `world.step` call, for an effect that is one. -/
def Effect.stepCall : Effect → Option (Rat × Rat × Nat)
  | Effect.worldStep dt timeSinceLastCalled maxSubSteps =>
    some (dt, timeSinceLastCalled, maxSubSteps)
  | _ => none

/-- The arguments of the `world.step` calls of a trace, oldest first. -/
def stepCalls (tr : List Effect) : List (Rat × Rat × Nat) :=
  tr.filterMap Effect.stepCall

/-- Successive ticks, each with its clock reading and the engine's work for that step. -/
def runTicks : List (Rat × Engine) → App → App
  | [], s => s
  | (elapsedTime, engine) :: rest, s => runTicks rest (tick elapsedTime engine s)

/-- An engine whose step puts every body of the world at the origin and reports no contact. -/
def originEngine : Engine :=
  { integrate := fun _ _ _ _ _ _ => (Vec3.zero, Quat.identity),
    contacts := fun _ _ _ _ _ => [] }

/-- An engine whose step leaves every pose as it is and reports one contact of impact 2 on
body 1. -/
def bumpEngine : Engine :=
  { integrate := fun _ _ _ _ bodies r => ((bodies r).position, (bodies r).quaternion),
    contacts := fun _ _ _ _ _ => [{ target := 1, collision := { impact := 2 } }] }

/-- The relation between the registry, the scene, the world and the heaps that the script
maintains. -/
structure Inv (s : App) : Prop where
  world : s.worldBodies = planeBody :: s.updatedValues.map Pair.body
  scene : s.sceneChildren =
    fixedChildren ++ s.updatedValues.map (fun p => SceneChild.mesh p.box)
  boxAllocated : ∀ p ∈ s.updatedValues, p.box < s.meshCount
  bodyAllocated : ∀ p ∈ s.updatedValues, p.body < s.bodyCount
  bodyNotPlane : ∀ p ∈ s.updatedValues, p.body ≠ planeBody
  planeAllocated : planeBody < s.bodyCount
  boxNodup : (s.updatedValues.map Pair.box).Nodup
  bodyNodup : (s.updatedValues.map Pair.body).Nodup
  listeners : ∀ r, (s.bodies r).collide = [] ∨
    ((s.bodies r).collide = [Listener.playSound] ∧ r ∈ s.updatedValues.map Pair.body)
  plane : (s.bodies planeBody).shape = Shape.plane ∧ (s.bodies planeBody).mass = 0
  registered : ∀ p ∈ s.updatedValues, (s.bodies p.body).collide = [Listener.playSound]

/-- Only the sound, the random cursor and the trace differ, and the trace grew by effects that
are not `world.step` calls. -/
def SoundOnly (s t : App) : Prop :=
  ∃ snd rc tr, t = { s with sound := snd, randomCalls := rc, trace := s.trace ++ tr } ∧
    stepCalls tr = []

/-! ## Theorems -/

theorem roundHalfEven_bounds (z : Rat) :
    ⌊z⌋ ≤ roundHalfEven z ∧ roundHalfEven z ≤ ⌊z⌋ + 1 ∧
    (z = ⌊z⌋ → roundHalfEven z = ⌊z⌋) := by
  unfold roundHalfEven
  simp only []
  refine ⟨?_, ?_, ?_⟩
  · split_ifs <;> omega
  · split_ifs <;> omega
  · intro h
    have : z - (⌊z⌋ : Rat) < 1 / 2 := by
      rw [sub_lt_iff_lt_add]
      nth_rewrite 1 [h]
      norm_num
    rw [if_pos this]

theorem roundHalfEven_le (z : Rat) (M : Int) (h : z ≤ M) : roundHalfEven z ≤ M := by
  have hb := roundHalfEven_bounds z
  have hf : ⌊z⌋ ≤ M := Int.floor_le_iff.mpr (by
    have := Int.floor_le z
    have : z < M + 1 := by linarith
    exact this)
  rcases lt_or_eq_of_le hf with h1 | h1
  · omega
  · have hz : z = ⌊z⌋ := by
      apply le_antisymm
      · rw [h1]; exact h
      · exact Int.floor_le z
    rw [hb.2.2 hz, h1]

theorem roundHalfEven_ge (z : Rat) (M : Int) (h : (M : Rat) ≤ z) : M ≤ roundHalfEven z := by
  have hb := roundHalfEven_bounds z
  have : M ≤ ⌊z⌋ := Int.le_floor.mpr h
  omega

theorem roundHalfEven_intCast (n : Int) : roundHalfEven (n : Rat) = n := by
  have hb := roundHalfEven_bounds (n : Rat)
  have hf : ⌊(n : Rat)⌋ = n := Int.floor_intCast n
  rw [hb.2.2 (by rw [hf]), hf]

theorem ulpExponent_le (x : Rat) (hx : x ≠ 0) (K : Int) (hK : -1074 ≤ K)
    (h : |x| < 2 ^ (K + 53)) : ulpExponent x ≤ K := by
  have hpos : 0 < |x| := abs_pos.mpr hx
  have hl : Int.log 2 |x| < K + 53 :=
    (Int.lt_zpow_iff_log_lt (by norm_num) hpos).mp (by simpa using h)
  unfold ulpExponent
  apply max_le
  · omega
  · exact hK

theorem abs_lt_ulp (x : Rat) : |x| < 2 ^ (ulpExponent x + 53) := by
  have h1 : |x| < ((2 : ℕ) : Rat) ^ (Int.log 2 |x| + 1) :=
    Int.lt_zpow_succ_log_self (by norm_num) |x|
  have h2 : Int.log 2 |x| + 1 ≤ ulpExponent x + 53 := by
    have : Int.log 2 |x| - 52 ≤ ulpExponent x := le_max_left _ _
    omega
  have h3 : ((2 : ℕ) : Rat) ^ (Int.log 2 |x| + 1) ≤ (2 : Rat) ^ (ulpExponent x + 53) := by
    simp only [Nat.cast_ofNat]
    exact zpow_le_zpow_right₀ (by norm_num) h2
  exact lt_of_lt_of_le h1 h3

theorem roundDouble_grid_strict (n k : Int) (hn : |n| < 2 ^ 53) (hk : -1074 ≤ k) :
    roundDouble ((n : Rat) * 2 ^ k) = (n : Rat) * 2 ^ k := by
  by_cases h0 : n = 0
  · subst h0
    simp [roundDouble]
  have hx : (n : Rat) * 2 ^ k ≠ 0 := by
    apply mul_ne_zero
    · exact_mod_cast h0
    · exact zpow_ne_zero k (by norm_num)
  have habs : |(n : Rat) * 2 ^ k| < 2 ^ (k + 53) := by
    rw [abs_mul, abs_of_pos (zpow_pos (by norm_num : (0 : Rat) < 2) k), zpow_add₀ (by norm_num),
      mul_comm]
    apply mul_lt_mul_of_pos_left _ (zpow_pos (by norm_num : (0 : Rat) < 2) k)
    have : ((|n| : Int) : Rat) < ((2 ^ 53 : Int) : Rat) := by exact_mod_cast hn
    push_cast at this
    norm_num
    exact this
  have hK := ulpExponent_le _ hx k hk habs
  obtain ⟨j, hj⟩ : ∃ j : ℕ, k = ulpExponent ((n : Rat) * 2 ^ k) + j :=
    ⟨(k - ulpExponent ((n : Rat) * 2 ^ k)).toNat, by omega⟩
  unfold roundDouble
  rw [if_neg hx]
  generalize ulpExponent ((n : Rat) * 2 ^ k) = K at hj
  have hq : (2 : Rat) ^ K ≠ 0 := zpow_ne_zero K (by norm_num)
  have e1 : (n : Rat) * 2 ^ k / 2 ^ K = ((n * 2 ^ j : Int) : Rat) := by
    rw [hj, zpow_add₀ (by norm_num : (2 : Rat) ≠ 0), zpow_natCast]
    field_simp
    ring
  rw [e1, roundHalfEven_intCast, hj, zpow_add₀ (by norm_num : (2 : Rat) ≠ 0), zpow_natCast]
  push_cast
  ring

theorem roundDouble_grid (n k : Int) (hn : |n| ≤ 2 ^ 53) (hk : -1074 ≤ k) :
    roundDouble ((n : Rat) * 2 ^ k) = (n : Rat) * 2 ^ k := by
  rcases lt_or_eq_of_le hn with h | h
  · exact roundDouble_grid_strict n k h hk
  · have hcases : n = 2 ^ 53 ∨ n = -(2 ^ 53) := by
      rcases abs_cases n with ⟨h1, _⟩ | ⟨h1, _⟩ <;> omega
    have e : (n : Rat) * 2 ^ k = ((n / 2 ^ 53 : Int) : Rat) * 2 ^ (k + 53) := by
      rw [zpow_add₀ (by norm_num : (2 : Rat) ≠ 0)]
      rcases hcases with h1 | h1 <;> subst h1 <;> norm_num <;> ring
    rw [e]
    apply roundDouble_grid_strict
    · rcases hcases with h1 | h1 <;> subst h1 <;> norm_num
    · omega

theorem roundDouble_form (y : Rat) :
    ∃ n k : Int, |n| ≤ 2 ^ 53 ∧ -1074 ≤ k ∧ roundDouble y = (n : Rat) * 2 ^ k := by
  by_cases h0 : y = 0
  · exact ⟨0, 0, by norm_num, by norm_num, by simp [roundDouble, h0]⟩
  refine ⟨roundHalfEven (y / 2 ^ ulpExponent y), ulpExponent y, ?_, le_max_right _ _, ?_⟩
  · have hq : (0 : Rat) < 2 ^ ulpExponent y := zpow_pos (by norm_num) _
    have hlt := abs_lt_ulp y
    rw [zpow_add₀ (by norm_num : (2 : Rat) ≠ 0)] at hlt
    have hb : |y / 2 ^ ulpExponent y| < 2 ^ (53 : Int) := by
      rw [abs_div, abs_of_pos hq, div_lt_iff₀ hq, mul_comm]
      exact hlt
    have hb2 := abs_lt.mp hb
    rw [abs_le]
    constructor
    · apply roundHalfEven_ge
      have := hb2.1
      push_cast
      norm_num at this ⊢
      linarith
    · apply roundHalfEven_le
      have := hb2.2
      push_cast
      norm_num at this ⊢
      linarith
  · simp [roundDouble, h0]

theorem roundDouble_mul_four (y : Rat) :
    roundDouble (roundDouble y * 4) = roundDouble y * 4 := by
  obtain ⟨n, k, hn, hk, e⟩ := roundDouble_form y
  have e4 : roundDouble y * 4 = (n : Rat) * 2 ^ (k + 2) := by
    rw [e, zpow_add₀ (by norm_num : (2 : Rat) ≠ 0)]
    norm_num
    ring
  rw [e4]
  exact roundDouble_grid n (k + 2) hn (by omega)

theorem roundHalfEven_error (z : Rat) : |(roundHalfEven z : Rat) - z| ≤ 1 / 2 := by
  have h1 : (⌊z⌋ : Rat) ≤ z := Int.floor_le z
  have h2 : z < ⌊z⌋ + 1 := Int.lt_floor_add_one z
  unfold roundHalfEven
  simp only []
  rw [abs_le]
  split_ifs with a b c
  · constructor <;> linarith
  · push_cast
    constructor <;> linarith
  · constructor <;> linarith
  · push_cast
    constructor <;> linarith

theorem roundDouble_half_range (y : Rat) (h1 : -(1 / 2) ≤ y) (h2 : y ≤ 1 / 2 - 1 / 2 ^ 53) :
    -(1 / 2) ≤ roundDouble y ∧ roundDouble y ≤ 1 / 2 - 1 / 2 ^ 53 ∧
    |roundDouble y - y| ≤ 1 / 2 ^ 54 := by
  by_cases h0 : y = 0
  · subst h0
    simp only [roundDouble, if_true]
    norm_num
  have habs : |y| < 2 ^ ((-53 : Int) + 53) := by
    rw [abs_lt]
    norm_num
    constructor <;> linarith
  have hK := ulpExponent_le y h0 (-53) (by norm_num) habs
  obtain ⟨j, hj⟩ : ∃ j : ℕ, (-53 : Int) = ulpExponent y + j :=
    ⟨(-53 - ulpExponent y).toNat, by omega⟩
  unfold roundDouble
  rw [if_neg h0]
  generalize ulpExponent y = K at hj hK
  have hq : (0 : Rat) < 2 ^ K := zpow_pos (by norm_num) K
  have hpow : (2 : Rat) ^ K * 2 ^ j = 1 / 2 ^ 53 := by
    rw [← zpow_natCast, ← zpow_add₀ (by norm_num : (2 : Rat) ≠ 0), ← hj]
    norm_num
  have hpow2 : (2 : Rat) ^ j * 2 ^ K = 1 / 2 ^ 53 := by
    rw [mul_comm]
    exact hpow
  have hj1 : (1 : Rat) ≤ 2 ^ j := one_le_pow₀ (by norm_num)
  have hup : roundHalfEven (y / 2 ^ K) ≤ (2 ^ 52 - 1) * 2 ^ j := by
    apply roundHalfEven_le
    rw [div_le_iff₀ hq]
    push_cast
    rw [mul_assoc, hpow2]
    norm_num at h2 ⊢
    linarith
  have hlo : -(2 ^ 52) * 2 ^ j ≤ roundHalfEven (y / 2 ^ K) := by
    apply roundHalfEven_ge
    rw [le_div_iff₀ hq]
    push_cast
    rw [mul_assoc, hpow2]
    norm_num at h1 ⊢
    linarith
  have hupq : (roundHalfEven (y / 2 ^ K) : Rat) ≤ (2 ^ 52 - 1) * 2 ^ j := by
    exact_mod_cast hup
  have hloq : -(2 ^ 52) * 2 ^ j ≤ (roundHalfEven (y / 2 ^ K) : Rat) := by
    exact_mod_cast hlo
  refine ⟨?_, ?_, ?_⟩
  · have := mul_le_mul_of_nonneg_right hloq hq.le
    rw [mul_assoc, hpow2] at this
    norm_num at this ⊢
    linarith
  · have := mul_le_mul_of_nonneg_right hupq hq.le
    rw [mul_assoc, hpow2] at this
    norm_num at this ⊢
    linarith
  · have herr := roundHalfEven_error (y / 2 ^ K)
    have e : (roundHalfEven (y / 2 ^ K) : Rat) * 2 ^ K - y =
        ((roundHalfEven (y / 2 ^ K) : Rat) - y / 2 ^ K) * 2 ^ K := by
      field_simp
    rw [e, abs_mul, abs_of_pos hq]
    have hK2 : (2 : Rat) ^ K ≤ 1 / 2 ^ 53 := by
      rw [← hpow]
      nlinarith
    calc |(roundHalfEven (y / 2 ^ K) : Rat) - y / 2 ^ K| * 2 ^ K
        ≤ 1 / 2 * 2 ^ K := mul_le_mul_of_nonneg_right herr hq.le
      _ ≤ 1 / 2 * (1 / 2 ^ 53) := by linarith
      _ = 1 / 2 ^ 54 := by norm_num

theorem IsDouble.le_pred_one {r : Rat} (h : IsDouble r) (h1 : r < 1) :
    r ≤ 1 - 1 / 2 ^ 53 := by
  obtain ⟨m, k, hm, hk, _, e⟩ := h
  have hmq : |(m : Rat)| < 2 ^ 53 := by
    have : ((|m| : Int) : Rat) < ((2 ^ 53 : Int) : Rat) := by exact_mod_cast hm
    push_cast at this
    norm_num
    exact this
  by_cases hc : -53 ≤ k
  · obtain ⟨j, hj⟩ : ∃ j : ℕ, k = -53 + j := ⟨(k + 53).toNat, by omega⟩
    have e2 : r = ((m * 2 ^ j : Int) : Rat) / 2 ^ 53 := by
      rw [e, hj, zpow_add₀ (by norm_num : (2 : Rat) ≠ 0), zpow_natCast]
      push_cast
      norm_num
      ring
    have hlt : ((m * 2 ^ j : Int) : Rat) < 2 ^ 53 := by
      rw [e2, div_lt_one (by norm_num)] at h1
      exact h1
    have hlt2 : m * 2 ^ j < 2 ^ 53 := by exact_mod_cast hlt
    have hle : m * 2 ^ j ≤ 2 ^ 53 - 1 := by omega
    have hleq : ((m * 2 ^ j : Int) : Rat) ≤ 2 ^ 53 - 1 := by exact_mod_cast hle
    rw [e2, div_le_iff₀ (by norm_num)]
    norm_num at hleq ⊢
    linarith
  · have hk2 : k ≤ -54 := by omega
    have hp : (2 : Rat) ^ k ≤ 2 ^ (-54 : Int) := zpow_le_zpow_right₀ (by norm_num) hk2
    have hpos : (0 : Rat) < 2 ^ k := zpow_pos (by norm_num) k
    have h3 : r ≤ |(m : Rat)| * 2 ^ k := by
      rw [e]
      exact mul_le_mul_of_nonneg_right (le_abs_self _) hpos.le
    have h4 : |(m : Rat)| * 2 ^ k ≤ 2 ^ 53 * 2 ^ (-54 : Int) :=
      mul_le_mul hmq.le hp hpos.le (by norm_num)
    norm_num at h4 ⊢
    linarith

theorem SoundOnly.refl (s : App) : SoundOnly s s :=
  ⟨s.sound, s.randomCalls, [], by simp, rfl⟩

theorem SoundOnly.trans {s t u : App} (h1 : SoundOnly s t) (h2 : SoundOnly t u) :
    SoundOnly s u := by
  obtain ⟨snd1, rc1, tr1, e1, c1⟩ := h1
  obtain ⟨snd2, rc2, tr2, e2, c2⟩ := h2
  refine ⟨snd2, rc2, tr1 ++ tr2, ?_, ?_⟩
  · rw [e2, e1]
    simp [List.append_assoc]
  · simp only [stepCalls, List.filterMap_append] at c1 c2 ⊢
    rw [c1, c2]
    rfl

theorem playSound_soundOnly (c : Collision) (s : App) : SoundOnly s (playSound c s) := by
  by_cases h : c.impact > 1.5
  · refine ⟨{ s.sound with volume := s.random s.randomCalls, currentTime := 0 },
      s.randomCalls + 1,
      [Effect.soundVolume (s.random s.randomCalls), Effect.soundCurrentTime 0,
        Effect.soundPlay], ?_, ?_⟩
    · simp [playSound, h, mathRandom, log]
    · simp [stepCalls, Effect.stepCall]
  · have : playSound c s = s := by simp [playSound, h]
    rw [this]
    exact SoundOnly.refl s

theorem foldl_soundOnly {α : Type} (f : App → α → App) (hf : ∀ s x, SoundOnly s (f s x))
    (l : List α) (s : App) : SoundOnly s (l.foldl f s) := by
  induction l generalizing s with
  | nil => exact SoundOnly.refl s
  | cons x l ih => exact SoundOnly.trans (hf s x) (ih (f s x))

theorem dispatchCollide_soundOnly (s : App) (ev : CollideEvent) :
    SoundOnly s (dispatchCollide s ev) := by
  unfold dispatchCollide
  apply foldl_soundOnly
  intro acc l
  cases l
  exact playSound_soundOnly ev.collision acc


theorem foldl_tickObject_shape (l : List Pair) (s : App) :
    l.foldl tickObject s = { s with meshes := (l.foldl tickObject s).meshes } := by
  induction l generalizing s with
  | nil => rfl
  | cons p l ih =>
    simp only [List.foldl_cons]
    rw [ih (tickObject s p)]
    simp [tickObject, updateMesh]

theorem worldStep_shape (engine : Engine) (dt d : Rat) (n : Nat) (s : App) :
    ∃ snd rc tr, stepCalls tr = [] ∧
      worldStep engine dt d n s =
        { s with
          bodies := fun r =>
            if r ∈ s.worldBodies then
              { mass := (s.bodies r).mass, shape := (s.bodies r).shape,
                material := (s.bodies r).material,
                position := (engine.integrate dt d n s.worldBodies s.bodies r).1,
                quaternion := (engine.integrate dt d n s.worldBodies s.bodies r).2,
                collide := (s.bodies r).collide }
            else s.bodies r,
          sound := snd, randomCalls := rc,
          trace := s.trace ++ [Effect.worldStep dt d n] ++ tr } := by
  unfold worldStep
  simp only []
  obtain ⟨snd, rc, tr, e, c⟩ := foldl_soundOnly dispatchCollide dispatchCollide_soundOnly
    (engine.contacts dt d n (log (Effect.worldStep dt d n) s).worldBodies
      (log (Effect.worldStep dt d n) s).bodies)
    { log (Effect.worldStep dt d n) s with bodies := fun r =>
        let b := (log (Effect.worldStep dt d n) s).bodies r
        if r ∈ (log (Effect.worldStep dt d n) s).worldBodies then
          { b with
            position := (engine.integrate dt d n (log (Effect.worldStep dt d n) s).worldBodies
              (log (Effect.worldStep dt d n) s).bodies r).1,
            quaternion := (engine.integrate dt d n (log (Effect.worldStep dt d n) s).worldBodies
              (log (Effect.worldStep dt d n) s).bodies r).2 }
        else b }
  refine ⟨snd, rc, tr, c, ?_⟩
  rw [e]
  simp [log]

theorem tick_shape (elapsedTime : Rat) (engine : Engine) (s : App) :
    ∃ snd rc tr, stepCalls tr = [] ∧
      tick elapsedTime engine s =
        { s with
          oldElapsedTime := elapsedTime,
          meshes := (s.updatedValues.foldl tickObject s).meshes,
          bodies := fun r =>
            if r ∈ s.worldBodies then
              { mass := (s.bodies r).mass, shape := (s.bodies r).shape,
                material := (s.bodies r).material,
                position := (engine.integrate (1 / 60) (elapsedTime - s.oldElapsedTime) 3
                  s.worldBodies s.bodies r).1,
                quaternion := (engine.integrate (1 / 60) (elapsedTime - s.oldElapsedTime) 3
                  s.worldBodies s.bodies r).2,
                collide := (s.bodies r).collide }
            else s.bodies r,
          sound := snd, randomCalls := rc,
          frameChildren := s.sceneChildren,
          frame := (s.updatedValues.foldl tickObject s).meshes,
          trace := s.trace ++ [Effect.worldStep (1 / 60) (elapsedTime - s.oldElapsedTime) 3]
            ++ tr ++ [Effect.controlsUpdate, Effect.render, Effect.requestAnimationFrame] } := by
  have hm : ∀ (l : List Pair) (u : App),
      (l.foldl tickObject { u with oldElapsedTime := elapsedTime }).meshes =
        (l.foldl tickObject u).meshes ∧
      (l.foldl tickObject { u with oldElapsedTime := elapsedTime }) =
        { l.foldl tickObject u with oldElapsedTime := elapsedTime } := by
    intro l
    induction l with
    | nil => intro u; exact ⟨rfl, rfl⟩
    | cons p l ih =>
      intro u
      simp only [List.foldl_cons]
      have : tickObject { u with oldElapsedTime := elapsedTime } p =
          { tickObject u p with oldElapsedTime := elapsedTime } := by
        simp [tickObject, updateMesh]
      rw [this]
      exact ih (tickObject u p)
  obtain ⟨snd, rc, tr, c, e⟩ := worldStep_shape engine (1 / 60)
    (elapsedTime - s.oldElapsedTime) 3
    (s.updatedValues.foldl tickObject { s with oldElapsedTime := elapsedTime })
  refine ⟨snd, rc, tr, c, ?_⟩
  unfold tick
  simp only []
  rw [e, (hm s.updatedValues s).2, foldl_tickObject_shape s.updatedValues s]
  simp [log, render]

theorem foldl_erase_append {α β : Type} [DecidableEq α] (f : β → α) (l : List β)
    (pre : List α) (h : ∀ x ∈ l, f x ∉ pre) :
    l.foldl (fun w p => w.erase (f p)) (pre ++ l.map f) = pre := by
  induction l with
  | nil => simp
  | cons x l ih =>
    simp only [List.map_cons, List.foldl_cons]
    rw [List.erase_append_right _ (h x (List.mem_cons_self x l)), List.erase_cons_head]
    exact ih (fun y hy => h y (List.mem_cons_of_mem x hy))

theorem foldl_resetObject_shape (l : List Pair) (s : App) :
    l.foldl params.resetObject s =
      { s with
        bodies := (l.foldl params.resetObject s).bodies,
        worldBodies := l.foldl (fun w p => w.erase p.body) s.worldBodies,
        sceneChildren := l.foldl (fun c p => c.erase (SceneChild.mesh p.box)) s.sceneChildren,
        trace := s.trace ++ l.flatMap (fun p =>
          [Effect.removeEventListener p.body Listener.playSound, Effect.worldRemove p.body,
            Effect.sceneRemove (SceneChild.mesh p.box)]) } := by
  induction l generalizing s with
  | nil => simp
  | cons p l ih =>
    simp only [List.foldl_cons]
    rw [ih (params.resetObject s p)]
    simp [params.resetObject, removeEventListener, worldRemove, sceneRemove, updateBody, log]

theorem foldl_resetObject_static (l : List Pair) (s : App) (r : Nat) :
    ((l.foldl params.resetObject s).bodies r).shape = (s.bodies r).shape ∧
    ((l.foldl params.resetObject s).bodies r).mass = (s.bodies r).mass := by
  induction l generalizing s with
  | nil => exact ⟨rfl, rfl⟩
  | cons p l ih =>
    simp only [List.foldl_cons]
    rw [(ih (params.resetObject s p)).1, (ih (params.resetObject s p)).2]
    by_cases hr : r = p.body
    · subst hr
      simp [params.resetObject, removeEventListener, worldRemove, sceneRemove, updateBody, log]
    · simp [params.resetObject, removeEventListener, worldRemove, sceneRemove, updateBody, log,
        Function.update_noteq hr]

theorem foldl_resetObject_collide (l : List Pair) (s : App)
    (h : ∀ r, (s.bodies r).collide = [] ∨
      ((s.bodies r).collide = [Listener.playSound] ∧ r ∈ l.map Pair.body)) :
    ∀ r, ((l.foldl params.resetObject s).bodies r).collide = [] := by
  induction l generalizing s with
  | nil =>
    intro r
    rcases h r with h1 | h1
    · exact h1
    · simp at h1
  | cons p l ih =>
    simp only [List.foldl_cons]
    apply ih
    intro r
    by_cases hr : r = p.body
    · left
      subst hr
      rcases h p.body with h1 | h1
      · simp [params.resetObject, removeEventListener, worldRemove, sceneRemove, updateBody,
          log, h1]
      · simp [params.resetObject, removeEventListener, worldRemove, sceneRemove, updateBody,
          log, h1.1]
    · have e : (params.resetObject s p).bodies r = s.bodies r := by
        simp [params.resetObject, removeEventListener, worldRemove, sceneRemove, updateBody,
          log, Function.update_noteq hr]
      rw [e]
      rcases h r with h1 | h1
      · exact Or.inl h1
      · right
        refine ⟨h1.1, ?_⟩
        have := h1.2
        simp only [List.map_cons, List.mem_cons] at this
        rcases this with h2 | h2
        · exact absurd h2 hr
        · exact h2

theorem createBox_shape (width height depth : Rat) (position : Vec3) (s : App) :
    createBox width height depth position s =
      { s with
        meshes := Function.update s.meshes s.meshCount
          { castShadow := true, scale := ⟨width, height, depth⟩, position := position,
            quaternion := Quat.identity },
        meshCount := s.meshCount + 1,
        bodies := Function.update s.bodies s.bodyCount
          { mass := 1, shape := Shape.box ⟨width / 2, height / 2, depth / 1⟩,
            material := Material.ballMaterial, position := position,
            quaternion := Quat.identity, collide := [Listener.playSound] },
        bodyCount := s.bodyCount + 1,
        sceneChildren :=
          s.sceneChildren.erase (SceneChild.mesh s.meshCount) ++ [SceneChild.mesh s.meshCount],
        worldBodies :=
          if s.bodyCount ∈ s.worldBodies then s.worldBodies
          else s.worldBodies ++ [s.bodyCount],
        updatedValues := s.updatedValues ++ [{ box := s.meshCount, body := s.bodyCount }],
        trace := s.trace ++
          [Effect.sceneAdd (SceneChild.mesh s.meshCount),
            Effect.addEventListener s.bodyCount Listener.playSound,
            Effect.worldAdd s.bodyCount,
            Effect.registryPush { box := s.meshCount, body := s.bodyCount }] } := by
  simp [createBox, newMesh, newBody, updateMesh, updateBody, sceneAdd, worldAdd,
    addEventListener, log, Body.fresh, Mesh.fresh]

theorem Inv.of_randomCalls {s : App} (h : Inv s) (n : Nat) :
    Inv { s with randomCalls := n } :=
  { world := h.world, scene := h.scene, boxAllocated := h.boxAllocated,
    bodyAllocated := h.bodyAllocated, bodyNotPlane := h.bodyNotPlane,
    planeAllocated := h.planeAllocated, boxNodup := h.boxNodup, bodyNodup := h.bodyNodup,
    listeners := h.listeners, plane := h.plane, registered := h.registered }

theorem Inv.fresh_body {s : App} (h : Inv s) : s.bodyCount ∉ s.worldBodies := by
  rw [h.world]
  intro hm
  simp only [List.mem_cons, List.mem_map] at hm
  rcases hm with hm | ⟨p, hp, hpe⟩
  · have := h.planeAllocated
    omega
  · have := h.bodyAllocated p hp
    omega

theorem Inv.fresh_mesh {s : App} (h : Inv s) :
    SceneChild.mesh s.meshCount ∉ s.sceneChildren := by
  rw [h.scene]
  intro hm
  simp only [fixedChildren, List.mem_append, List.mem_cons, List.mem_map, List.mem_singleton,
    reduceCtorEq, false_or, List.not_mem_nil, or_false, SceneChild.mesh.injEq] at hm
  obtain ⟨p, hp, hpe⟩ := hm
  have := h.boxAllocated p hp
  omega

theorem Inv.createBox {s : App} (h : Inv s) (width height depth : Rat) (position : Vec3) :
    Inv (createBox width height depth position s) := by
  rw [createBox_shape]
  have hb := h.fresh_body
  have hm := h.fresh_mesh
  constructor
  · simp only [if_neg hb]
    rw [h.world]
    simp
  · simp only [List.erase_of_not_mem hm]
    rw [h.scene]
    simp
  · intro p hp
    simp only [List.mem_append, List.mem_singleton] at hp
    rcases hp with hp | hp
    · have := h.boxAllocated p hp
      simp only
      omega
    · subst hp
      simp
  · intro p hp
    simp only [List.mem_append, List.mem_singleton] at hp
    rcases hp with hp | hp
    · have := h.bodyAllocated p hp
      simp only
      omega
    · subst hp
      simp
  · intro p hp
    simp only [List.mem_append, List.mem_singleton] at hp
    rcases hp with hp | hp
    · exact h.bodyNotPlane p hp
    · subst hp
      have := h.planeAllocated
      simp only
      omega
  · have := h.planeAllocated
    simp only
    omega
  · simp only [List.map_append, List.map_cons, List.map_nil]
    rw [List.nodup_append]
    refine ⟨h.boxNodup, List.nodup_singleton _, ?_⟩
    simp only [List.disjoint_singleton, List.mem_map, not_exists, not_and]
    intro p hp hpe
    have := h.boxAllocated p hp
    omega
  · simp only [List.map_append, List.map_cons, List.map_nil]
    rw [List.nodup_append]
    refine ⟨h.bodyNodup, List.nodup_singleton _, ?_⟩
    simp only [List.disjoint_singleton, List.mem_map, not_exists, not_and]
    intro p hp hpe
    have := h.bodyAllocated p hp
    omega
  · intro r
    by_cases hr : r = s.bodyCount
    · right
      subst hr
      simp
    · simp only [Function.update_noteq hr]
      rcases h.listeners r with h1 | h1
      · exact Or.inl h1
      · right
        refine ⟨h1.1, ?_⟩
        simp only [List.map_append, List.mem_append]
        exact Or.inl h1.2
  · have hp : planeBody ≠ s.bodyCount := by
      have := h.planeAllocated
      omega
    simp only [Function.update_noteq hp]
    exact h.plane
  · intro p hp
    simp only [List.mem_append, List.mem_singleton] at hp
    rcases hp with hp | hp
    · have hne : p.body ≠ s.bodyCount := by
        have := h.bodyAllocated p hp
        omega
      simp only [Function.update_noteq hne]
      exact h.registered p hp
    · subst hp
      simp

theorem Inv.startupScene (host : Host) : Inv (startupScene host) := by
  constructor
  · simp [ThreePhysics.startupScene, blank, newBody, updateBody, worldAdd, sceneAdd, log,
      planeBody]
  · simp [ThreePhysics.startupScene, blank, newBody, updateBody, worldAdd, sceneAdd, log,
      fixedChildren]
  · intro p hp
    simp [ThreePhysics.startupScene, blank, newBody, updateBody, worldAdd, sceneAdd, log] at hp
  · intro p hp
    simp [ThreePhysics.startupScene, blank, newBody, updateBody, worldAdd, sceneAdd, log] at hp
  · intro p hp
    simp [ThreePhysics.startupScene, blank, newBody, updateBody, worldAdd, sceneAdd, log] at hp
  · simp [ThreePhysics.startupScene, blank, newBody, updateBody, worldAdd, sceneAdd, log,
      planeBody]
  · simp [ThreePhysics.startupScene, blank, newBody, updateBody, worldAdd, sceneAdd, log]
  · simp [ThreePhysics.startupScene, blank, newBody, updateBody, worldAdd, sceneAdd, log]
  · intro r
    left
    by_cases hr : r = 0
    · subst hr
      simp [ThreePhysics.startupScene, blank, newBody, updateBody, worldAdd, sceneAdd, log,
        Body.fresh]
    · simp [ThreePhysics.startupScene, blank, newBody, updateBody, worldAdd, sceneAdd, log,
        Body.fresh, Function.update_noteq hr]
  · simp [ThreePhysics.startupScene, blank, newBody, updateBody, worldAdd, sceneAdd, log,
      Body.fresh, planeBody]
  · intro p hp
    simp [ThreePhysics.startupScene, blank, newBody, updateBody, worldAdd, sceneAdd, log] at hp

theorem Inv.of_oldElapsedTime {s : App} (h : Inv s) (t : Rat) :
    Inv { s with oldElapsedTime := t } :=
  { world := h.world, scene := h.scene, boxAllocated := h.boxAllocated,
    bodyAllocated := h.bodyAllocated, bodyNotPlane := h.bodyNotPlane,
    planeAllocated := h.planeAllocated, boxNodup := h.boxNodup, bodyNodup := h.bodyNodup,
    listeners := h.listeners, plane := h.plane, registered := h.registered }

theorem Inv.startup (host : Host) : Inv (startup host) := by
  unfold ThreePhysics.startup
  simp only []
  apply Inv.of_oldElapsedTime
  apply Inv.createBox
  exact Inv.of_randomCalls (Inv.startupScene host) _

theorem Inv.spawn {s : App} (h : Inv s) : Inv (params.createBox s) := by
  unfold params.createBox
  simp only []
  apply Inv.createBox
  exact Inv.of_randomCalls h _

theorem reset_shape (s : App) :
    params.reset s =
      { s with
        bodies := (s.updatedValues.foldl params.resetObject s).bodies,
        worldBodies := s.updatedValues.foldl (fun w p => w.erase p.body) s.worldBodies,
        sceneChildren :=
          s.updatedValues.foldl (fun c p => c.erase (SceneChild.mesh p.box)) s.sceneChildren,
        updatedValues := [],
        trace := s.trace ++ s.updatedValues.flatMap (fun p =>
          [Effect.removeEventListener p.body Listener.playSound, Effect.worldRemove p.body,
            Effect.sceneRemove (SceneChild.mesh p.box)]) ++ [Effect.registryClear] } := by
  unfold params.reset
  simp only []
  rw [foldl_resetObject_shape]
  simp [log]

theorem Inv.reset_world {s : App} (h : Inv s) :
    s.updatedValues.foldl (fun w p => w.erase p.body) s.worldBodies = [planeBody] := by
  rw [h.world]
  apply foldl_erase_append Pair.body s.updatedValues [planeBody]
  intro p hp
  simp only [List.mem_singleton]
  exact h.bodyNotPlane p hp

theorem Inv.reset_scene {s : App} (h : Inv s) :
    s.updatedValues.foldl (fun c p => c.erase (SceneChild.mesh p.box)) s.sceneChildren =
      fixedChildren := by
  rw [h.scene]
  apply foldl_erase_append (fun p : Pair => SceneChild.mesh p.box) s.updatedValues fixedChildren
  intro p _
  simp [fixedChildren]

theorem Inv.reset {s : App} (h : Inv s) : Inv (params.reset s) := by
  rw [reset_shape]
  constructor
  · simp only [List.map_nil]
    exact h.reset_world
  · simp only [List.map_nil, List.append_nil]
    exact h.reset_scene
  · intro p hp
    simp at hp
  · intro p hp
    simp at hp
  · intro p hp
    simp at hp
  · exact h.planeAllocated
  · simp
  · simp
  · intro r
    left
    exact foldl_resetObject_collide s.updatedValues s h.listeners r
  · rw [(foldl_resetObject_static s.updatedValues s planeBody).1,
      (foldl_resetObject_static s.updatedValues s planeBody).2]
    exact h.plane
  · intro p hp
    simp at hp

theorem Inv.tick {s : App} (h : Inv s) (elapsedTime : Rat) (engine : Engine) :
    Inv (tick elapsedTime engine s) := by
  obtain ⟨snd, rc, tr, _, e⟩ := tick_shape elapsedTime engine s
  rw [e]
  constructor
  · exact h.world
  · exact h.scene
  · exact h.boxAllocated
  · exact h.bodyAllocated
  · exact h.bodyNotPlane
  · exact h.planeAllocated
  · exact h.boxNodup
  · exact h.bodyNodup
  · intro r
    have hc := h.listeners r
    by_cases hr : r ∈ s.worldBodies
    · simpa [hr] using hc
    · simpa [hr] using hc
  · have hc := h.plane
    by_cases hr : planeBody ∈ s.worldBodies
    · simpa [hr] using hc
    · simpa [hr] using hc
  · intro p hp
    have hc := h.registered p hp
    by_cases hr : p.body ∈ s.worldBodies
    · simpa [hr] using hc
    · simpa [hr] using hc

theorem Inv.onResize {s : App} (h : Inv s) (w ht dpr : Rat) : Inv (onResize w ht dpr s) :=
  { world := h.world, scene := h.scene, boxAllocated := h.boxAllocated,
    bodyAllocated := h.bodyAllocated, bodyNotPlane := h.bodyNotPlane,
    planeAllocated := h.planeAllocated, boxNodup := h.boxNodup, bodyNodup := h.bodyNodup,
    listeners := h.listeners, plane := h.plane, registered := h.registered }

theorem Reachable.inv {s : App} (h : Reachable s) : Inv s := by
  induction h with
  | start host => exact Inv.startup host
  | step a _ ih =>
    cases a with
    | spawn => exact Inv.spawn ih
    | reset => exact Inv.reset ih
    | tick t e => exact Inv.tick ih t e
    | resize w ht dpr => exact Inv.onResize ih w ht dpr

theorem foldl_tickObject_bodies (l : List Pair) (s : App) :
    (l.foldl tickObject s).bodies = s.bodies := by
  rw [foldl_tickObject_shape]

theorem foldl_tickObject_untouched (l : List Pair) (s : App) (r : Nat)
    (h : r ∉ l.map Pair.box) : (l.foldl tickObject s).meshes r = s.meshes r := by
  induction l generalizing s with
  | nil => rfl
  | cons p l ih =>
    simp only [List.map_cons, List.mem_cons, not_or] at h
    simp only [List.foldl_cons]
    rw [ih (tickObject s p) h.2]
    simp [tickObject, updateMesh, Function.update_noteq h.1]

theorem foldl_tickObject_pose (l : List Pair) (s : App) (hn : (l.map Pair.box).Nodup)
    (p : Pair) (hp : p ∈ l) :
    ((l.foldl tickObject s).meshes p.box).position = (s.bodies p.body).position ∧
    ((l.foldl tickObject s).meshes p.box).quaternion = (s.bodies p.body).quaternion := by
  induction l generalizing s with
  | nil => simp at hp
  | cons q l ih =>
    simp only [List.map_cons, List.nodup_cons] at hn
    simp only [List.foldl_cons]
    by_cases hq : p.box = q.box
    · have hpq : p = q := by
        rcases List.mem_cons.mp hp with h1 | h1
        · exact h1
        · exfalso
          apply hn.1
          rw [← hq]
          exact List.mem_map_of_mem Pair.box h1
      subst hpq
      rw [foldl_tickObject_untouched l (tickObject s p) p.box hn.1]
      simp [tickObject, updateMesh]
    · have hpl : p ∈ l := by
        rcases List.mem_cons.mp hp with h1 | h1
        · exact absurd (by rw [h1]) hq
        · exact h1
      have hb : (tickObject s q).bodies = s.bodies := by
        simp [tickObject, updateMesh]
      rw [← hb]
      exact ih (tickObject s q) hn.2 hpl

theorem tick_clock (elapsedTime : Rat) (engine : Engine) (s : App) :
    (tick elapsedTime engine s).oldElapsedTime = elapsedTime ∧
    (tick elapsedTime engine s).updatedValues = s.updatedValues ∧
    stepCalls (tick elapsedTime engine s).trace =
      stepCalls s.trace ++ [(1 / 60, elapsedTime - s.oldElapsedTime, 3)] := by
  obtain ⟨snd, rc, tr, c, e⟩ := tick_shape elapsedTime engine s
  rw [e]
  refine ⟨rfl, rfl, ?_⟩
  simp only [stepCalls, List.filterMap_append] at c ⊢
  rw [c]
  simp [Effect.stepCall]

theorem runTicks_clock (ticks : List (Rat × Engine)) (s : App) :
    (runTicks ticks s).oldElapsedTime =
      ((ticks.map Prod.fst).getLast?).getD s.oldElapsedTime ∧
    (runTicks ticks s).updatedValues = s.updatedValues ∧
    stepCalls (runTicks ticks s).trace =
      stepCalls s.trace ++
        List.zipWith (fun t prev => ((1 : Rat) / 60, t - prev, 3))
          (ticks.map Prod.fst) (s.oldElapsedTime :: ticks.map Prod.fst) := by
  induction ticks generalizing s with
  | nil => simp [runTicks]
  | cons x rest ih =>
    obtain ⟨t, e⟩ := x
    have hc := tick_clock t e s
    have hr := ih (tick t e s)
    simp only [runTicks, List.map_cons, List.zipWith_cons_cons]
    rw [hr.1, hr.2.1, hr.2.2, hc.1, hc.2.1, hc.2.2, List.getLast?_cons]
    simp

theorem deltas_sum (l : List Rat) (t0 : Rat) :
    (List.zipWith (fun t prev => t - prev) l (t0 :: l)).sum = (l.getLast?).getD t0 - t0 := by
  induction l generalizing t0 with
  | nil => simp
  | cons a l ih =>
    simp only [List.zipWith_cons_cons, List.sum_cons, List.getLast?_cons, Option.getD_some]
    rw [ih a]
    ring

theorem deltas_nonneg (l : List Rat) (t0 : Rat) (h0 : ∀ t ∈ l, t0 ≤ t)
    (hs : l.Sorted (fun a b => a ≤ b)) :
    ∀ d ∈ List.zipWith (fun t prev => t - prev) l (t0 :: l), 0 ≤ d := by
  induction l generalizing t0 with
  | nil => simp
  | cons a l ih =>
    intro d hd
    simp only [List.zipWith_cons_cons, List.mem_cons] at hd
    have hs2 := List.pairwise_cons.mp hs
    rcases hd with hd | hd
    · rw [hd]
      have := h0 a (List.mem_cons_self a l)
      linarith
    · exact ih a hs2.1 hs2.2 d hd

theorem roundDouble_of_grid (x : Rat) (n k : Int) (hn : |n| ≤ 2 ^ 53) (hk : -1074 ≤ k)
    (e : x = (n : Rat) * 2 ^ k) : roundDouble x = x := by
  rw [e]
  exact roundDouble_grid n k hn hk

theorem spawn_coordinate (r : Rat) (hd : IsDouble r) (h0 : 0 ≤ r) (h1 : r < 1) :
    roundDouble (roundDouble (r - 0.5) * 4) = roundDouble (r - 0.5) * 4 ∧
    -(1 / 2) ≤ roundDouble (r - 0.5) ∧
    roundDouble (r - 0.5) ≤ 1 / 2 - 1 / 2 ^ 53 ∧
    |roundDouble (r - 0.5) - (r - 0.5)| ≤ 1 / 2 ^ 54 := by
  have hp := hd.le_pred_one h1
  have h := roundDouble_half_range (r - 0.5) (by norm_num; linarith)
    (by norm_num at hp ⊢; linarith)
  exact ⟨roundDouble_mul_four (r - 0.5), h.1, h.2.1, h.2.2⟩

theorem isDouble_largest_below_one : IsDouble (1 - 1 / 2 ^ 53) :=
  ⟨2 ^ 53 - 1, -53, by norm_num, by norm_num, by norm_num, by norm_num⟩

theorem isDouble_zero : IsDouble 0 :=
  ⟨0, 0, by norm_num, by norm_num, by norm_num, by norm_num⟩

theorem isDouble_quarter : IsDouble (1 / 4) :=
  ⟨1, -2, by norm_num, by norm_num, by norm_num, by norm_num⟩

theorem spawn_coordinate_at_zero : roundDouble (roundDouble ((0 : Rat) - 0.5) * 4) = -2 := by
  have e1 : roundDouble ((0 : Rat) - 0.5) = -(1 / 2) := by
    rw [roundDouble_of_grid ((0 : Rat) - 0.5) (-1) (-1) (by norm_num) (by norm_num)
      (by norm_num)]
    norm_num
  rw [e1, roundDouble_of_grid (-(1 / 2) * 4 : Rat) (-1) 1 (by norm_num) (by norm_num)
    (by norm_num)]
  norm_num

theorem spawn_coordinate_at_largest :
    roundDouble (roundDouble ((1 - 1 / 2 ^ 53 : Rat) - 0.5) * 4) = 2 - 1 / 2 ^ 51 := by
  have e1 : roundDouble ((1 - 1 / 2 ^ 53 : Rat) - 0.5) = 1 / 2 - 1 / 2 ^ 53 := by
    rw [roundDouble_of_grid ((1 - 1 / 2 ^ 53 : Rat) - 0.5) (2 ^ 52 - 1) (-53) (by norm_num)
      (by norm_num) (by norm_num)]
    norm_num
  rw [e1, roundDouble_of_grid ((1 / 2 - 1 / 2 ^ 53) * 4 : Rat) (2 ^ 52 - 1) (-51)
    (by norm_num) (by norm_num) (by norm_num)]
  norm_num

theorem roundDouble_quarter_sub_half : roundDouble ((1 / 4 : Rat) - 0.5) = -(1 / 4) := by
  rw [roundDouble_of_grid ((1 / 4 : Rat) - 0.5) (-1) (-2) (by norm_num) (by norm_num)
    (by norm_num)]
  norm_num

theorem ulpExponent_of_binade (x : Rat) (e : Int) (h1 : (2 : Rat) ^ e ≤ |x|)
    (h2 : |x| < 2 ^ (e + 1)) (he : -1022 ≤ e) : ulpExponent x = e - 52 := by
  have hpos : 0 < |x| := lt_of_lt_of_le (zpow_pos (by norm_num) e) h1
  have hl1 : e ≤ Int.log 2 |x| :=
    (Int.zpow_le_iff_le_log (by norm_num) hpos).mp (by simpa using h1)
  have hl2 : Int.log 2 |x| < e + 1 :=
    (Int.lt_zpow_iff_log_lt (by norm_num) hpos).mp (by simpa using h2)
  unfold ulpExponent
  have : Int.log 2 |x| = e := by omega
  rw [this]
  exact max_eq_left (by omega)

theorem roundDouble_tenth_sub_half :
    roundDouble ((3602879701896397 / 2 ^ 55 : Rat) - 0.5) = -(7205759403792794 / 2 ^ 54) := by
  have hu : ulpExponent ((3602879701896397 / 2 ^ 55 : Rat) - 0.5) = -54 := by
    have := ulpExponent_of_binade ((3602879701896397 / 2 ^ 55 : Rat) - 0.5) (-2)
      (by rw [abs_of_neg (by norm_num)]; norm_num)
      (by rw [abs_of_neg (by norm_num)]; norm_num) (by norm_num)
    rw [this]
    norm_num
  have hne : ((3602879701896397 / 2 ^ 55 : Rat) - 0.5) ≠ 0 := by norm_num
  unfold roundDouble
  rw [if_neg hne, hu]
  have hz : ((3602879701896397 / 2 ^ 55 : Rat) - 0.5) / 2 ^ (-54 : Int) =
      -(14411518807585587 / 2) := by norm_num
  rw [hz]
  have hf : ⌊(-(14411518807585587 / 2) : Rat)⌋ = -7205759403792794 := by
    rw [Int.floor_eq_iff]
    norm_num
  have hr : roundHalfEven (-(14411518807585587 / 2) : Rat) = -7205759403792794 := by
    unfold roundHalfEven
    simp only [hf]
    norm_num
  rw [hr]
  norm_num

theorem spawn_coordinate_at_tenth :
    roundDouble (roundDouble ((3602879701896397 / 2 ^ 55 : Rat) - 0.5) * 4) =
      -(3602879701896397 / 2 ^ 51) := by
  rw [roundDouble_tenth_sub_half,
    roundDouble_of_grid (-(7205759403792794 / 2 ^ 54) * 4 : Rat) (-7205759403792794) (-52)
      (by norm_num) (by norm_num) (by norm_num)]
  norm_num

/-- C3: `playSound` starts playback exactly when the impact velocity is above 1.5.  At or below
the threshold (1.4 and 1.5 in particular) the state, hence the sound's volume and currentTime,
is unchanged; above it (1.6 in particular) the volume is set to the next `Math.random()` result,
then currentTime to 0, then `play` is called, and a result in [0,1) gives a volume in [0,1). -/
theorem playSound_threshold (c : Collision) (s : App) :
    (¬ c.impact > 1.5 → playSound c s = s) ∧
    (c.impact > 1.5 →
      (playSound c s).trace = s.trace ++
        [Effect.soundVolume (s.random s.randomCalls), Effect.soundCurrentTime 0,
          Effect.soundPlay] ∧
      (playSound c s).sound.volume = s.random s.randomCalls ∧
      (playSound c s).sound.currentTime = 0 ∧
      (0 ≤ s.random s.randomCalls ∧ s.random s.randomCalls < 1 →
        0 ≤ (playSound c s).sound.volume ∧ (playSound c s).sound.volume < 1)) ∧
    ((playSound c s).trace.count Effect.soundPlay = s.trace.count Effect.soundPlay + 1 ↔
      c.impact > 1.5) ∧
    (c.impact = 1.4 → playSound c s = s) ∧
    (c.impact = 1.5 → playSound c s = s) ∧
    (c.impact = 1.6 →
      (playSound c s).trace.count Effect.soundPlay = s.trace.count Effect.soundPlay + 1) := by
  have hplay : c.impact > 1.5 →
      (playSound c s).trace = s.trace ++
        [Effect.soundVolume (s.random s.randomCalls), Effect.soundCurrentTime 0,
          Effect.soundPlay] := by
    intro h
    simp [playSound, h, mathRandom, log]
  have hcount : c.impact > 1.5 →
      (playSound c s).trace.count Effect.soundPlay = s.trace.count Effect.soundPlay + 1 := by
    intro h
    rw [hplay h]
    simp [List.count_append, List.count_cons]
  have hquiet : ¬ c.impact > 1.5 → playSound c s = s := by
    intro h
    simp [playSound, h]
  refine ⟨hquiet, ?_, ?_, ?_, ?_, ?_⟩
  · intro h
    refine ⟨hplay h, ?_, ?_, ?_⟩
    · simp [playSound, h, mathRandom, log]
    · simp [playSound, h, mathRandom, log]
    · intro hr
      simpa [playSound, h, mathRandom, log] using hr
  · constructor
    · intro h
      by_contra hn
      rw [hquiet hn] at h
      omega
    · exact hcount
  · intro h
    apply hquiet
    rw [h]
    norm_num
  · intro h
    apply hquiet
    rw [h]
    norm_num
  · intro h
    apply hcount
    rw [h]
    norm_num

/-- Witness for C3 on the startup state of `sampleHost`: an impact of 1.6 plays at volume 1/4
from time 0, an impact of 1.5 changes nothing. -/
theorem playSound_threshold_witness :
    (playSound ⟨1.6⟩ (startup sampleHost)).sound.volume = 1 / 4 ∧
    (playSound ⟨1.6⟩ (startup sampleHost)).sound.currentTime = 0 ∧
    playSound ⟨1.5⟩ (startup sampleHost) = startup sampleHost := by
  have h := playSound_threshold ⟨1.6⟩ (startup sampleHost)
  have h2 := playSound_threshold ⟨1.5⟩ (startup sampleHost)
  refine ⟨?_, (h.2.1 (by norm_num)).2.2.1, h2.2.2.2.2.1 rfl⟩
  rw [(h.2.1 (by norm_num)).2.1]
  simp [startup, startupScene, sampleHost, blank, createBox, newMesh, newBody, updateMesh,
    updateBody, sceneAdd, worldAdd, addEventListener, log, startupCreateBoxArgs, mathRandom]

/-- C5: for all arguments, the body `createBox` builds has the box shape with half-extents
(width/2, height/2, depth) and the mesh it builds is scaled to (width, height, depth) on the
unit cube `boxGeometry`; so the physical full extent equals the visual one in width and height
and is twice the visual one in depth. -/
theorem createBox_half_extents (width height depth : Rat) (position : Vec3) (s : App) :
    ((createBox width height depth position s).bodies s.bodyCount).shape =
      Shape.box ⟨width / 2, height / 2, depth⟩ ∧
    ((createBox width height depth position s).meshes s.meshCount).scale =
      ⟨width, height, depth⟩ ∧
    boxGeometry = ⟨1, 1, 1⟩ ∧
    ((createBox width height depth position s).meshes s.meshCount).fullExtent =
      ⟨width, height, depth⟩ ∧
    ((createBox width height depth position s).bodies s.bodyCount).shape.fullExtent =
      ⟨width, height, 2 * depth⟩ := by
  simp [createBox, newMesh, newBody, updateMesh, updateBody, sceneAdd, worldAdd,
    addEventListener, log, Body.fresh, Mesh.fresh, Shape.fullExtent, Mesh.fullExtent,
    boxGeometry]
  constructor <;> ring

/-- C8: a resize to `w` x `h` with `h ≠ 0` sets `sizes` and the renderer size to (w, h), the
camera aspect to w / h and the pixel ratio to min(devicePixelRatio, 2), which is at most 2 and
is devicePixelRatio when that is at most 2; startup computes the aspect and the pixel ratio by
the same formulas. -/
theorem onResize_sets_viewport (w h dpr : Rat) (s : App) (_hh : h ≠ 0) (host : Host)
    (_hhost : host.innerHeight ≠ 0) :
    (onResize w h dpr s).sizes = ⟨w, h⟩ ∧
    (onResize w h dpr s).cameraAspect = w / h ∧
    (onResize w h dpr s).rendererSize = ⟨w, h⟩ ∧
    (onResize w h dpr s).pixelRatio = min dpr 2 ∧
    (onResize w h dpr s).pixelRatio ≤ 2 ∧
    (dpr ≤ 2 → (onResize w h dpr s).pixelRatio = dpr) ∧
    (onResize w h dpr s).trace = s.trace ++
      [Effect.updateProjectionMatrix, Effect.setSize w h, Effect.setPixelRatio (min dpr 2)] ∧
    (startup host).cameraAspect = host.innerWidth / host.innerHeight ∧
    (startup host).pixelRatio = min host.devicePixelRatio 2 ∧
    (startup host).rendererSize = ⟨host.innerWidth, host.innerHeight⟩ := by
  refine ⟨?_, ?_, ?_, ?_, ?_, ?_, ?_, ?_, ?_, ?_⟩
  · simp [onResize, log]
  · simp [onResize, log]
  · simp [onResize, log]
  · simp [onResize, log]
  · simp [onResize, log]
  · intro hd
    simp [onResize, log, hd]
  · simp [onResize, log]
  · simp [startup, startupScene, blank, createBox, newMesh, newBody, updateMesh, updateBody,
      sceneAdd, worldAdd, addEventListener, log, startupCreateBoxArgs, mathRandom]
  · simp [startup, startupScene, blank, createBox, newMesh, newBody, updateMesh, updateBody,
      sceneAdd, worldAdd, addEventListener, log, startupCreateBoxArgs, mathRandom]
  · simp [startup, startupScene, blank, createBox, newMesh, newBody, updateMesh, updateBody,
      sceneAdd, worldAdd, addEventListener, log, startupCreateBoxArgs, mathRandom]

/-- Witness for C8: resizing the `sampleHost` application to 1920 x 1080 at device pixel ratio
3 gives aspect 16/9 and pixel ratio 2. -/
theorem onResize_sets_viewport_witness :
    (onResize 1920 1080 3 (startup sampleHost)).cameraAspect = 16 / 9 ∧
    (onResize 1920 1080 3 (startup sampleHost)).pixelRatio = 2 ∧
    (startup sampleHost).cameraAspect = 4 / 3 := by
  have h := onResize_sets_viewport 1920 1080 3 (startup sampleHost) (by norm_num) sampleHost
    (by norm_num [sampleHost])
  refine ⟨?_, ?_, ?_⟩
  · rw [h.2.1]; norm_num
  · rw [h.2.2.2.1]; norm_num
  · rw [h.2.2.2.2.2.2.2.1]; norm_num [sampleHost]

/-- Counterexample to C4 as stated: in double precision the upper bound 2 is not approached
arbitrarily closely, and x is not the exact value of (r - 0.5) * 4.  No stream of doubles in
[0,1) makes the UI-triggered spawn ask for an x above 2 - 2^-52; the largest x, at the largest
double below 1, is 2 - 2^-51; and at r = 3602879701896397 / 2^55, the double nearest 0.1, the
spawn asks for x = -3602879701896397 / 2^51, the double nearest -1.6, which is 2^-53 below the
exact value. -/
theorem spawn_upper_bound_counterexample :
    (¬ ∃ s : App, (∀ n, IsDouble (s.random n) ∧ 0 ≤ s.random n ∧ s.random n < 1) ∧
      2 - 1 / 2 ^ 52 < (params.createBoxArgs s).1.position.x) ∧
    (params.createBoxArgs
      { startup sampleHost with random := fun _ => 1 - 1 / 2 ^ 53 }).1.position.x =
        2 - 1 / 2 ^ 51 ∧
    IsDouble (3602879701896397 / 2 ^ 55) ∧
    (params.createBoxArgs
      { startup sampleHost with random := fun _ => 3602879701896397 / 2 ^ 55 }).1.position.x =
        -(3602879701896397 / 2 ^ 51) ∧
    (params.createBoxArgs
      { startup sampleHost with random := fun _ => 3602879701896397 / 2 ^ 55 }).1.position.x ≠
        ((3602879701896397 / 2 ^ 55 : Rat) - 0.5) * 4 := by
  have e10 : (params.createBoxArgs
      { startup sampleHost with random := fun _ => 3602879701896397 / 2 ^ 55 }).1.position.x =
        -(3602879701896397 / 2 ^ 51) := by
    simp only [params.createBoxArgs, mathRandom]
    exact spawn_coordinate_at_tenth
  refine ⟨?_, ?_, ?_, e10, ?_⟩
  · rintro ⟨s, hs, hx⟩
    have h3 := hs (s.randomCalls + 3)
    have hc := spawn_coordinate _ h3.1 h3.2.1 h3.2.2
    have e : (params.createBoxArgs s).1.position.x =
        roundDouble (roundDouble (s.random (s.randomCalls + 3) - 0.5) * 4) := by
      simp [params.createBoxArgs, mathRandom]
    rw [e, hc.1] at hx
    have := hc.2.2.1
    norm_num at hx this
    linarith
  · simp only [params.createBoxArgs, mathRandom]
    exact spawn_coordinate_at_largest
  · exact ⟨3602879701896397, -55, by norm_num, by norm_num, by norm_num, by norm_num⟩
  · rw [e10]
    norm_num

/-- C4 as amended: when every `Math.random()` result is a double in [0,1), the UI-triggered
spawn and the startup spawn both call `createBox` with width, height and depth in [0,1),
position x and z in [-2,2) and position y = 3.  For the UI-triggered spawn x and z are the
double-precision value of (r - 0.5) * 4: the subtraction is rounded, the multiplication is
exact, and the result is within 2^-52 of the exact value; -2 is reached at r = 0, 2 is never
reached, and the largest value is 2 - 2^-51, reached at r = 1 - 2^-53. -/
theorem spawn_arguments_in_range (s : App) (host : Host)
    (hs : ∀ n, IsDouble (s.random n) ∧ 0 ≤ s.random n ∧ s.random n < 1)
    (hhost : ∀ n, IsDouble (host.random n) ∧ 0 ≤ host.random n ∧ host.random n < 1) :
    -- the UI-triggered spawn
    (params.createBox s =
      createBox (params.createBoxArgs s).1.width (params.createBoxArgs s).1.height
        (params.createBoxArgs s).1.depth (params.createBoxArgs s).1.position
        (params.createBoxArgs s).2) ∧
    (0 ≤ (params.createBoxArgs s).1.width ∧ (params.createBoxArgs s).1.width < 1) ∧
    (0 ≤ (params.createBoxArgs s).1.height ∧ (params.createBoxArgs s).1.height < 1) ∧
    (0 ≤ (params.createBoxArgs s).1.depth ∧ (params.createBoxArgs s).1.depth < 1) ∧
    (-2 ≤ (params.createBoxArgs s).1.position.x ∧ (params.createBoxArgs s).1.position.x < 2) ∧
    (params.createBoxArgs s).1.position.y = 3 ∧
    (-2 ≤ (params.createBoxArgs s).1.position.z ∧ (params.createBoxArgs s).1.position.z < 2) ∧
    (params.createBoxArgs s).1.position.x =
      roundDouble (roundDouble (s.random (s.randomCalls + 3) - 0.5) * 4) ∧
    (params.createBoxArgs s).1.position.z =
      roundDouble (roundDouble (s.random (s.randomCalls + 4) - 0.5) * 4) ∧
    (params.createBoxArgs s).1.position.x =
      roundDouble (s.random (s.randomCalls + 3) - 0.5) * 4 ∧
    (params.createBoxArgs s).1.position.z =
      roundDouble (s.random (s.randomCalls + 4) - 0.5) * 4 ∧
    |(params.createBoxArgs s).1.position.x - (s.random (s.randomCalls + 3) - 0.5) * 4| ≤
      1 / 2 ^ 52 ∧
    |(params.createBoxArgs s).1.position.z - (s.random (s.randomCalls + 4) - 0.5) * 4| ≤
      1 / 2 ^ 52 ∧
    (s.random (s.randomCalls + 3) = 0 → (params.createBoxArgs s).1.position.x = -2) ∧
    (s.random (s.randomCalls + 4) = 0 → (params.createBoxArgs s).1.position.z = -2) ∧
    (params.createBoxArgs s).1.position.x ≤ 2 - 1 / 2 ^ 51 ∧
    (params.createBoxArgs s).1.position.z ≤ 2 - 1 / 2 ^ 51 ∧
    (s.random (s.randomCalls + 3) = 1 - 1 / 2 ^ 53 →
      (params.createBoxArgs s).1.position.x = 2 - 1 / 2 ^ 51) ∧
    (s.random (s.randomCalls + 4) = 1 - 1 / 2 ^ 53 →
      (params.createBoxArgs s).1.position.z = 2 - 1 / 2 ^ 51) ∧
    (∃ t : App, (∀ n, IsDouble (t.random n) ∧ 0 ≤ t.random n ∧ t.random n < 1) ∧
      (params.createBoxArgs t).1.position.x = -2 ∧
      (params.createBoxArgs t).1.position.z = -2) ∧
    (∃ t : App, (∀ n, IsDouble (t.random n) ∧ 0 ≤ t.random n ∧ t.random n < 1) ∧
      (params.createBoxArgs t).1.position.x = 2 - 1 / 2 ^ 51 ∧
      (params.createBoxArgs t).1.position.z = 2 - 1 / 2 ^ 51) ∧
    -- the startup spawn
    ((startup host).updatedValues = [{ box := 0, body := 1 }]) ∧
    ((startup host).meshes 0).scale = ⟨host.random 0, host.random 1, host.random 2⟩ ∧
    ((startup host).meshes 0).position =
      ⟨roundDouble (host.random 3 - 0.5), 3, roundDouble (host.random 4 - 0.5)⟩ ∧
    ((startup host).bodies 1).position =
      ⟨roundDouble (host.random 3 - 0.5), 3, roundDouble (host.random 4 - 0.5)⟩ ∧
    (0 ≤ ((startup host).meshes 0).scale.x ∧ ((startup host).meshes 0).scale.x < 1) ∧
    (0 ≤ ((startup host).meshes 0).scale.y ∧ ((startup host).meshes 0).scale.y < 1) ∧
    (0 ≤ ((startup host).meshes 0).scale.z ∧ ((startup host).meshes 0).scale.z < 1) ∧
    (-2 ≤ ((startup host).meshes 0).position.x ∧ ((startup host).meshes 0).position.x < 2) ∧
    ((startup host).meshes 0).position.y = 3 ∧
    (-2 ≤ ((startup host).meshes 0).position.z ∧ ((startup host).meshes 0).position.z < 2) := by
  have e0 : (params.createBoxArgs s).1 =
      { width := s.random s.randomCalls, height := s.random (s.randomCalls + 1),
        depth := s.random (s.randomCalls + 2),
        position := ⟨roundDouble (roundDouble (s.random (s.randomCalls + 3) - 0.5) * 4), 3,
          roundDouble (roundDouble (s.random (s.randomCalls + 4) - 0.5) * 4)⟩ } := by
    simp [params.createBoxArgs, mathRandom]
  have em : ((startup host).meshes 0).scale = ⟨host.random 0, host.random 1, host.random 2⟩ ∧
      ((startup host).meshes 0).position =
        ⟨roundDouble (host.random 3 - 0.5), 3, roundDouble (host.random 4 - 0.5)⟩ := by
    simp [startup, startupScene, blank, createBox, newMesh, newBody, updateMesh, updateBody,
      sceneAdd, worldAdd, addEventListener, log, startupCreateBoxArgs, mathRandom]
  have h0 := hs s.randomCalls
  have h1 := hs (s.randomCalls + 1)
  have h2 := hs (s.randomCalls + 2)
  have h3 := hs (s.randomCalls + 3)
  have h4 := hs (s.randomCalls + 4)
  have c3 := spawn_coordinate _ h3.1 h3.2.1 h3.2.2
  have c4 := spawn_coordinate _ h4.1 h4.2.1 h4.2.2
  have g0 := hhost 0
  have g1 := hhost 1
  have g2 := hhost 2
  have g3 := hhost 3
  have g4 := hhost 4
  have d3 := spawn_coordinate _ g3.1 g3.2.1 g3.2.2
  have d4 := spawn_coordinate _ g4.1 g4.2.1 g4.2.2
  have b3 : -2 ≤ roundDouble (s.random (s.randomCalls + 3) - 0.5) * 4 ∧
      roundDouble (s.random (s.randomCalls + 3) - 0.5) * 4 ≤ 2 - 1 / 2 ^ 51 := by
    have a1 := c3.2.1
    have a2 := c3.2.2.1
    norm_num at a1 a2 ⊢
    constructor <;> linarith
  have b4 : -2 ≤ roundDouble (s.random (s.randomCalls + 4) - 0.5) * 4 ∧
      roundDouble (s.random (s.randomCalls + 4) - 0.5) * 4 ≤ 2 - 1 / 2 ^ 51 := by
    have a1 := c4.2.1
    have a2 := c4.2.2.1
    norm_num at a1 a2 ⊢
    constructor <;> linarith
  have herr : ∀ r : Rat, |roundDouble (r - 0.5) - (r - 0.5)| ≤ 1 / 2 ^ 54 →
      |roundDouble (r - 0.5) * 4 - (r - 0.5) * 4| ≤ 1 / 2 ^ 52 := by
    intro r hr
    have e : roundDouble (r - 0.5) * 4 - (r - 0.5) * 4 =
        (roundDouble (r - 0.5) - (r - 0.5)) * 4 := by ring
    rw [e, abs_mul]
    norm_num at hr ⊢
    linarith
  refine ⟨rfl, ?_, ?_, ?_, ?_, ?_, ?_, ?_, ?_, ?_, ?_, ?_, ?_, ?_, ?_, ?_, ?_, ?_, ?_, ?_, ?_,
    ?_, em.1, em.2, ?_, ?_, ?_, ?_, ?_, ?_, ?_⟩
  · rw [e0]; exact h0.2
  · rw [e0]; exact h1.2
  · rw [e0]; exact h2.2
  · rw [e0]
    simp only [c3.1]
    have := b3
    norm_num at this ⊢
    constructor <;> linarith
  · rw [e0]
  · rw [e0]
    simp only [c4.1]
    have := b4
    norm_num at this ⊢
    constructor <;> linarith
  · rw [e0]
  · rw [e0]
  · rw [e0]; exact c3.1
  · rw [e0]; exact c4.1
  · rw [e0]; simp only [c3.1]; exact herr _ c3.2.2.2
  · rw [e0]; simp only [c4.1]; exact herr _ c4.2.2.2
  · intro h; rw [e0]; simp only [h]; exact spawn_coordinate_at_zero
  · intro h; rw [e0]; simp only [h]; exact spawn_coordinate_at_zero
  · rw [e0]; simp only [c3.1]; exact b3.2
  · rw [e0]; simp only [c4.1]; exact b4.2
  · intro h; rw [e0]; simp only [h]; exact spawn_coordinate_at_largest
  · intro h; rw [e0]; simp only [h]; exact spawn_coordinate_at_largest
  · refine ⟨{ s with random := fun _ => 0 }, ?_, ?_, ?_⟩
    · intro n
      exact ⟨isDouble_zero, le_refl _, by norm_num⟩
    · simp only [params.createBoxArgs, mathRandom]
      exact spawn_coordinate_at_zero
    · simp only [params.createBoxArgs, mathRandom]
      exact spawn_coordinate_at_zero
  · refine ⟨{ s with random := fun _ => 1 - 1 / 2 ^ 53 }, ?_, ?_, ?_⟩
    · intro n
      exact ⟨isDouble_largest_below_one, by norm_num, by norm_num⟩
    · simp only [params.createBoxArgs, mathRandom]
      exact spawn_coordinate_at_largest
    · simp only [params.createBoxArgs, mathRandom]
      exact spawn_coordinate_at_largest
  · simp [startup, startupScene, blank, createBox, newMesh, newBody, updateMesh, updateBody,
      sceneAdd, worldAdd, addEventListener, log, startupCreateBoxArgs, mathRandom]
  · simp [startup, startupScene, blank, createBox, newMesh, newBody, updateMesh, updateBody,
      sceneAdd, worldAdd, addEventListener, log, startupCreateBoxArgs, mathRandom]
  · rw [em.1]; exact g0.2
  · rw [em.1]; exact g1.2
  · rw [em.1]; exact g2.2
  · rw [em.2]
    have a1 := d3.2.1
    have a2 := d3.2.2.1
    norm_num at a1 a2 ⊢
    constructor <;> linarith
  · rw [em.2]
  · rw [em.2]
    have a1 := d4.2.1
    have a2 := d4.2.2.1
    norm_num at a1 a2 ⊢
    constructor <;> linarith

/-- Witness for C4 as amended: with every `Math.random()` result equal to the double 1/4, the
UI-triggered spawn on the startup state of `sampleHost` asks for a box at x = -1, y = 3. -/
theorem spawn_arguments_in_range_witness :
    (params.createBoxArgs (startup sampleHost)).1.position.x = -1 ∧
    (params.createBoxArgs (startup sampleHost)).1.position.y = 3 := by
  have hr : ∀ n, (startup sampleHost).random n = 1 / 4 := by
    intro n
    simp [startup, startupScene, sampleHost, blank, createBox, newMesh, newBody, updateMesh,
      updateBody, sceneAdd, worldAdd, addEventListener, log, startupCreateBoxArgs, mathRandom]
  have h := spawn_arguments_in_range (startup sampleHost) sampleHost
    (by intro n
        rw [hr n]
        exact ⟨isDouble_quarter, by norm_num, by norm_num⟩)
    (by intro n
        exact ⟨isDouble_quarter, by norm_num [sampleHost], by norm_num [sampleHost]⟩)
  refine ⟨?_, h.2.2.2.2.2.1⟩
  rw [h.2.2.2.2.2.2.2.2.2.1, hr, roundDouble_quarter_sub_half]
  norm_num

/-- C1: one call of `createBox`, on a state in which the mesh and the body about to be
constructed are not yet in the scene and the world, appends exactly the pair of the new mesh and
the new body at the end of the registry (earlier entries unchanged and in order), appends the
new body to the world's bodies and the new mesh to the scene's children, so each of the three
counts grows by exactly one. -/
theorem createBox_appends_pair (width height depth : Rat) (position : Vec3) (s : App)
    (hb : s.bodyCount ∉ s.worldBodies)
    (hm : SceneChild.mesh s.meshCount ∉ s.sceneChildren) :
    (createBox width height depth position s).updatedValues =
      s.updatedValues ++ [{ box := s.meshCount, body := s.bodyCount }] ∧
    (createBox width height depth position s).updatedValues.length =
      s.updatedValues.length + 1 ∧
    (createBox width height depth position s).updatedValues.take s.updatedValues.length =
      s.updatedValues ∧
    (createBox width height depth position s).worldBodies = s.worldBodies ++ [s.bodyCount] ∧
    (createBox width height depth position s).worldBodies.length = s.worldBodies.length + 1 ∧
    (createBox width height depth position s).sceneChildren =
      s.sceneChildren ++ [SceneChild.mesh s.meshCount] ∧
    (createBox width height depth position s).sceneChildren.length =
      s.sceneChildren.length + 1 ∧
    (createBox width height depth position s).sceneChildren.countP SceneChild.isBox =
      s.sceneChildren.countP SceneChild.isBox + 1 ∧
    (createBox width height depth position s).meshCount = s.meshCount + 1 ∧
    (createBox width height depth position s).bodyCount = s.bodyCount + 1 := by
  rw [createBox_shape]
  simp [if_neg hb, List.erase_of_not_mem hm, List.countP_append, SceneChild.isBox]

/-- Witness for C1: a second box created on the startup state of `sampleHost` is the pair of
mesh 1 and body 2, after the startup pair of mesh 0 and body 1. -/
theorem createBox_appends_pair_witness :
    (createBox 1 1 1 ⟨0, 3, 0⟩ (startup sampleHost)).updatedValues =
      [{ box := 0, body := 1 }, { box := 1, body := 2 }] ∧
    (createBox 1 1 1 ⟨0, 3, 0⟩ (startup sampleHost)).worldBodies = [0, 1, 2] := by
  have h := createBox_appends_pair 1 1 1 ⟨0, 3, 0⟩ (startup sampleHost)
    (by simp [startup, startupScene, sampleHost, blank, createBox, newMesh, newBody,
          updateMesh, updateBody, sceneAdd, worldAdd, addEventListener, log,
          startupCreateBoxArgs, mathRandom])
    (by simp [startup, startupScene, sampleHost, blank, createBox, newMesh, newBody,
          updateMesh, updateBody, sceneAdd, worldAdd, addEventListener, log,
          startupCreateBoxArgs, mathRandom])
  refine ⟨?_, ?_⟩
  · rw [h.1]
    simp [startup, startupScene, sampleHost, blank, createBox, newMesh, newBody,
      updateMesh, updateBody, sceneAdd, worldAdd, addEventListener, log,
      startupCreateBoxArgs, mathRandom]
  · rw [h.2.2.2.1]
    simp [startup, startupScene, sampleHost, blank, createBox, newMesh, newBody,
      updateMesh, updateBody, sceneAdd, worldAdd, addEventListener, log,
      startupCreateBoxArgs, mathRandom]

/-- C2: in every state reachable from startup by spawn, reset and tick actions (window resizes
allowed in between), `params.reset` leaves the registry empty and the world holding the floor
body `planeBody` and nothing else: the number of non-floor bodies is zero and the floor body, a
static plane, is still there. -/
theorem reset_empties_registry_and_world (s : App) (h : Reachable s) :
    (params.reset s).updatedValues = [] ∧
    (params.reset s).updatedValues.length = 0 ∧
    (params.reset s).worldBodies = [planeBody] ∧
    (∀ b ∈ (params.reset s).worldBodies, b = planeBody) ∧
    ((params.reset s).worldBodies.filter (fun b => decide (b ≠ planeBody))).length = 0 ∧
    planeBody ∈ (params.reset s).worldBodies ∧
    ((params.reset s).bodies planeBody).shape = Shape.plane := by
  have hi := h.inv
  have hw : (params.reset s).worldBodies = [planeBody] := by
    rw [reset_shape]
    exact hi.reset_world
  have hu : (params.reset s).updatedValues = [] := by
    rw [reset_shape]
  refine ⟨hu, ?_, hw, ?_, ?_, ?_, (Inv.reset hi).plane.1⟩
  · rw [hu]; rfl
  · rw [hw]; simp
  · rw [hw]; simp
  · rw [hw]; simp

/-- Witness for C2: reset on the startup state of `sampleHost`. -/
theorem reset_empties_registry_and_world_witness :
    (params.reset (startup sampleHost)).updatedValues = [] ∧
    (params.reset (startup sampleHost)).worldBodies = [planeBody] :=
  ⟨(reset_empties_registry_and_world (startup sampleHost) (Reachable.start sampleHost)).1,
   (reset_empties_registry_and_world (startup sampleHost) (Reachable.start sampleHost)).2.2.1⟩

/-- C6: in every state reachable from startup by spawn, reset and tick actions (window resizes
allowed in between), the box meshes of the scene are exactly the boxes of the registry entries
and the non-floor bodies of the world are exactly the bodies of the same entries, entry by entry
and in the same order; so the number of box meshes, the number of non-floor bodies and the
registry length are equal. -/
theorem pairs_enter_and_leave_together (s : App) (h : Reachable s) :
    (∀ m, SceneChild.mesh m ∈ s.sceneChildren ↔ ∃ p ∈ s.updatedValues, p.box = m) ∧
    (∀ b, b ≠ planeBody → (b ∈ s.worldBodies ↔ ∃ p ∈ s.updatedValues, p.body = b)) ∧
    s.sceneChildren.filter SceneChild.isBox =
      s.updatedValues.map (fun p => SceneChild.mesh p.box) ∧
    s.worldBodies.filter (fun b => decide (b ≠ planeBody)) = s.updatedValues.map Pair.body ∧
    (s.sceneChildren.filter SceneChild.isBox).length = s.updatedValues.length ∧
    (s.worldBodies.filter (fun b => decide (b ≠ planeBody))).length =
      s.updatedValues.length ∧
    (s.updatedValues.map Pair.box).Nodup ∧ (s.updatedValues.map Pair.body).Nodup := by
  have hi := h.inv
  have hs : s.sceneChildren.filter SceneChild.isBox =
      s.updatedValues.map (fun p => SceneChild.mesh p.box) := by
    rw [hi.scene, List.filter_append]
    have h1 : fixedChildren.filter SceneChild.isBox = [] := by
      simp [fixedChildren, SceneChild.isBox]
    rw [h1, List.nil_append, List.filter_eq_self]
    intro c hc
    simp only [List.mem_map] at hc
    obtain ⟨p, _, rfl⟩ := hc
    rfl
  have hw : s.worldBodies.filter (fun b => decide (b ≠ planeBody)) =
      s.updatedValues.map Pair.body := by
    rw [hi.world, List.filter_cons]
    have h0 : decide (planeBody ≠ planeBody) = false := by simp
    rw [h0]
    simp only [Bool.false_eq_true, if_false]
    rw [List.filter_eq_self]
    intro b hb
    simp only [List.mem_map] at hb
    obtain ⟨p, hp, rfl⟩ := hb
    simpa using hi.bodyNotPlane p hp
  refine ⟨?_, ?_, hs, hw, ?_, ?_, hi.boxNodup, hi.bodyNodup⟩
  · intro m
    rw [hi.scene]
    simp [fixedChildren]
  · intro b hb
    rw [hi.world]
    simp [hb]
  · rw [hs, List.length_map]
  · rw [hw, List.length_map]

/-- Witness for C6: the startup state of `sampleHost` after one UI spawn. -/
theorem pairs_enter_and_leave_together_witness :
    (params.createBox (startup sampleHost)).sceneChildren.filter SceneChild.isBox =
      (params.createBox (startup sampleHost)).updatedValues.map
        (fun p => SceneChild.mesh p.box) :=
  (pairs_enter_and_leave_together (params.createBox (startup sampleHost))
    (Reachable.step Action.spawn (Reachable.start sampleHost))).2.2.1

/-- C9: for every registry content, `params.reset` performs, Pair by Pair in registry order,
the three effects unregister `playSound` from the body, remove the body from the world, remove
the visual from the scene, and clears the registry only after the last Pair.  Each effect is a
change of state: unregistering erases the listener while the body is still in the world, one
pass of the loop erases the body from `world.bodies` and the mesh from `scene.children`, and
after the reset the registry is empty.  In a reachable state every registry body has
`playSound` registered once and is in the world with its mesh in the scene before the reset,
and is out of both with no listener after it; after `createBox` the new body has `playSound`
registered exactly once. -/
theorem reset_unregisters_before_removal (s : App) :
    (params.reset s).trace =
      s.trace ++ s.updatedValues.flatMap (fun p =>
        [Effect.removeEventListener p.body Listener.playSound, Effect.worldRemove p.body,
          Effect.sceneRemove (SceneChild.mesh p.box)]) ++ [Effect.registryClear] ∧
    (∀ p ∈ s.updatedValues, ∃ before after,
      (params.reset s).trace =
        s.trace ++ before ++
          [Effect.removeEventListener p.body Listener.playSound, Effect.worldRemove p.body,
            Effect.sceneRemove (SceneChild.mesh p.box)] ++ after ++ [Effect.registryClear]) ∧
    -- the state after the reset
    (params.reset s).updatedValues = [] ∧
    (params.reset s).worldBodies =
      s.updatedValues.foldl (fun w p => w.erase p.body) s.worldBodies ∧
    (params.reset s).sceneChildren =
      s.updatedValues.foldl (fun c p => c.erase (SceneChild.mesh p.box)) s.sceneChildren ∧
    -- one pass of the loop, on any state
    (∀ (u : App) (p : Pair),
      ((removeEventListener p.body Listener.playSound u).bodies p.body).collide =
        (u.bodies p.body).collide.erase Listener.playSound ∧
      (removeEventListener p.body Listener.playSound u).worldBodies = u.worldBodies ∧
      (removeEventListener p.body Listener.playSound u).trace =
        u.trace ++ [Effect.removeEventListener p.body Listener.playSound] ∧
      ((params.resetObject u p).bodies p.body).collide =
        (u.bodies p.body).collide.erase Listener.playSound ∧
      (params.resetObject u p).worldBodies = u.worldBodies.erase p.body ∧
      (params.resetObject u p).sceneChildren =
        u.sceneChildren.erase (SceneChild.mesh p.box) ∧
      (params.resetObject u p).updatedValues = u.updatedValues) ∧
    -- reachable states: before and after
    (Reachable s → ∀ p ∈ s.updatedValues,
      (s.bodies p.body).collide = [Listener.playSound] ∧
      p.body ∈ s.worldBodies ∧
      SceneChild.mesh p.box ∈ s.sceneChildren ∧
      ((params.reset s).bodies p.body).collide = [] ∧
      p.body ∉ (params.reset s).worldBodies ∧
      SceneChild.mesh p.box ∉ (params.reset s).sceneChildren) ∧
    (Reachable s → ∀ r, Listener.playSound ∉ ((params.reset s).bodies r).collide) ∧
    (∀ (width height depth : Rat) (position : Vec3),
      ((createBox width height depth position s).bodies s.bodyCount).collide =
        [Listener.playSound] ∧
      ((createBox width height depth position s).bodies s.bodyCount).collide.count
          Listener.playSound = 1 ∧
      (createBox width height depth position s).updatedValues.getLast? =
        some { box := s.meshCount, body := s.bodyCount }) := by
  have ht : (params.reset s).trace =
      s.trace ++ s.updatedValues.flatMap (fun p =>
        [Effect.removeEventListener p.body Listener.playSound, Effect.worldRemove p.body,
          Effect.sceneRemove (SceneChild.mesh p.box)]) ++ [Effect.registryClear] := by
    rw [reset_shape]
  have hclear : ∀ r, Reachable s → ((params.reset s).bodies r).collide = [] := by
    intro r hr
    have hi := Inv.reset hr.inv
    rcases hi.listeners r with h1 | h1
    · exact h1
    · have h2 := h1.2
      rw [reset_shape] at h2
      simp at h2
  refine ⟨ht, ?_, ?_, ?_, ?_, ?_, ?_, ?_, ?_⟩
  · intro p hp
    obtain ⟨l1, l2, e⟩ := List.append_of_mem hp
    refine ⟨l1.flatMap (fun p =>
        [Effect.removeEventListener p.body Listener.playSound, Effect.worldRemove p.body,
          Effect.sceneRemove (SceneChild.mesh p.box)]),
      l2.flatMap (fun p =>
        [Effect.removeEventListener p.body Listener.playSound, Effect.worldRemove p.body,
          Effect.sceneRemove (SceneChild.mesh p.box)]), ?_⟩
    rw [ht, e, List.flatMap_append, List.flatMap_cons]
    simp [List.append_assoc]
  · rw [reset_shape]
  · rw [reset_shape]
  · rw [reset_shape]
  · intro u p
    simp [params.resetObject, removeEventListener, worldRemove, sceneRemove, updateBody, log]
  · intro hr p hp
    have hi := hr.inv
    have hw : (params.reset s).worldBodies = [planeBody] := by
      rw [reset_shape]
      exact hi.reset_world
    have hs : (params.reset s).sceneChildren = fixedChildren := by
      rw [reset_shape]
      exact hi.reset_scene
    refine ⟨hi.registered p hp, ?_, ?_, hclear p.body hr, ?_, ?_⟩
    · rw [hi.world]
      exact List.mem_cons_of_mem _ (List.mem_map_of_mem Pair.body hp)
    · rw [hi.scene]
      apply List.mem_append_right
      exact List.mem_map_of_mem (fun p : Pair => SceneChild.mesh p.box) hp
    · rw [hw]
      simp only [List.mem_singleton]
      exact hi.bodyNotPlane p hp
    · rw [hs]
      simp [fixedChildren]
  · intro hr r
    rw [hclear r hr]
    simp
  · intro width height depth position
    rw [createBox_shape]
    simp

/-- Witness for C9: on the startup state of `sampleHost` after one UI spawn, the second box
(mesh 1, body 2) is registered, in the world and in the scene before the reset and in neither,
with no listener, after it. -/
theorem reset_unregisters_before_removal_witness :
    ((params.createBox (startup sampleHost)).bodies 2).collide = [Listener.playSound] ∧
    2 ∈ (params.createBox (startup sampleHost)).worldBodies ∧
    SceneChild.mesh 1 ∈ (params.createBox (startup sampleHost)).sceneChildren ∧
    ((params.reset (params.createBox (startup sampleHost))).bodies 2).collide = [] ∧
    2 ∉ (params.reset (params.createBox (startup sampleHost))).worldBodies ∧
    SceneChild.mesh 1 ∉ (params.reset (params.createBox (startup sampleHost))).sceneChildren ∧
    (params.reset (params.createBox (startup sampleHost))).updatedValues = [] := by
  have h := reset_unregisters_before_removal (params.createBox (startup sampleHost))
  have hp : ({ box := 1, body := 2 } : Pair) ∈
      (params.createBox (startup sampleHost)).updatedValues := by
    simp [params.createBox, params.createBoxArgs, startup, startupScene, sampleHost, blank,
      createBox, newMesh, newBody, updateMesh, updateBody, sceneAdd, worldAdd,
      addEventListener, log, startupCreateBoxArgs, mathRandom]
  have hr := h.2.2.2.2.2.2.1 (Reachable.step Action.spawn (Reachable.start sampleHost)) _ hp
  exact ⟨hr.1, hr.2.1, hr.2.2.1, hr.2.2.2.1, hr.2.2.2.2.1, hr.2.2.2.2.2, h.2.2.1⟩

/-- Counterexample to C7 as stated: on the startup state of `sampleHost`, with an engine that
moves every body to the origin, the tick at clock reading 1 renders the startup box at
(-1/4, 3, -1/4) although its body is at the origin after that tick's `world.step`. -/
theorem tick_renders_pose_after_step_counterexample :
    ({ box := 0, body := 1 } : Pair) ∈
      (tick 1 originEngine (startup sampleHost)).updatedValues ∧
    ((tick 1 originEngine (startup sampleHost)).frame 0).position = ⟨-1 / 4, 3, -1 / 4⟩ ∧
    ((tick 1 originEngine (startup sampleHost)).bodies 1).position = ⟨0, 0, 0⟩ ∧
    ((tick 1 originEngine (startup sampleHost)).frame 0).position ≠
      ((tick 1 originEngine (startup sampleHost)).bodies 1).position := by
  have h1 : ((tick 1 originEngine (startup sampleHost)).frame 0).position =
      ⟨-1 / 4, 3, -1 / 4⟩ := by
    simp [tick, tickObject, worldStep, render, originEngine, startup, startupScene, sampleHost,
      blank, createBox, newMesh, newBody, updateMesh, updateBody, sceneAdd, worldAdd,
      addEventListener, log, startupCreateBoxArgs, mathRandom, Body.fresh, Mesh.fresh]
    norm_num
    rw [roundDouble_of_grid (-(1 / 4)) (-1) (-2) (by norm_num) (by norm_num) (by norm_num)]
  have h2 : ((tick 1 originEngine (startup sampleHost)).bodies 1).position = ⟨0, 0, 0⟩ := by
    simp [tick, tickObject, worldStep, render, originEngine, startup, startupScene, sampleHost,
      blank, createBox, newMesh, newBody, updateMesh, updateBody, sceneAdd, worldAdd,
      addEventListener, log, startupCreateBoxArgs, mathRandom, Body.fresh, Mesh.fresh,
      Vec3.zero]
  refine ⟨?_, h1, h2, ?_⟩
  · simp [tick, tickObject, worldStep, render, originEngine, startup, startupScene, sampleHost,
      blank, createBox, newMesh, newBody, updateMesh, updateBody, sceneAdd, worldAdd,
      addEventListener, log, startupCreateBoxArgs, mathRandom, Body.fresh, Mesh.fresh]
  · rw [h1, h2]
    intro h
    have := congrArg Vec3.y h
    norm_num at this

/-- C7 as amended: each tick first copies, for every Pair, the body's position and orientation
onto the visual and only then advances the physics world with `world.step(1/60, delta, 3)`; so
for any engine, in every reachable state, what `renderer.render` draws for a registry entry is
the pose its body had before that tick's `world.step`, while the body itself then has the pose
the step gave it. -/
theorem tick_renders_pose_before_step (s : App) (h : Reachable s) (elapsedTime : Rat)
    (engine : Engine) :
    (∃ sounds, stepCalls sounds = [] ∧
      (tick elapsedTime engine s).trace =
        s.trace ++ [Effect.worldStep (1 / 60) (elapsedTime - s.oldElapsedTime) 3] ++ sounds ++
          [Effect.controlsUpdate, Effect.render, Effect.requestAnimationFrame]) ∧
    (tick elapsedTime engine s).updatedValues = s.updatedValues ∧
    (tick elapsedTime engine s).frame = (tick elapsedTime engine s).meshes ∧
    ∀ p ∈ (tick elapsedTime engine s).updatedValues,
      ((tick elapsedTime engine s).frame p.box).position = (s.bodies p.body).position ∧
      ((tick elapsedTime engine s).frame p.box).quaternion = (s.bodies p.body).quaternion ∧
      ((tick elapsedTime engine s).bodies p.body).position =
        (engine.integrate (1 / 60) (elapsedTime - s.oldElapsedTime) 3
          s.worldBodies s.bodies p.body).1 ∧
      ((tick elapsedTime engine s).bodies p.body).quaternion =
        (engine.integrate (1 / 60) (elapsedTime - s.oldElapsedTime) 3
          s.worldBodies s.bodies p.body).2 := by
  have hi := h.inv
  obtain ⟨snd, rc, tr, c, e⟩ := tick_shape elapsedTime engine s
  rw [e]
  refine ⟨⟨tr, c, rfl⟩, rfl, rfl, ?_⟩
  intro p hp
  have hp0 : p ∈ s.updatedValues := hp
  have hpose := foldl_tickObject_pose s.updatedValues s hi.boxNodup p hp0
  have hw : p.body ∈ s.worldBodies := by
    rw [hi.world]
    exact List.mem_cons_of_mem _ (List.mem_map_of_mem Pair.body hp0)
  refine ⟨hpose.1, hpose.2, ?_, ?_⟩
  · simp [hw]
  · simp [hw]

/-- Witness for C7 as amended: on the startup state of `sampleHost`, a first tick whose step
moves every body to the origin is followed by a second tick; the second tick draws the startup
box at the origin, the pose the first step left, while the first tick drew it at height 3. -/
theorem tick_renders_pose_before_step_witness :
    ((tick 2 bumpEngine (tick 1 originEngine (startup sampleHost))).frame 0).position =
      ⟨0, 0, 0⟩ ∧
    ((tick 1 originEngine (startup sampleHost)).frame 0).position.y = 3 := by
  have h1 := tick_renders_pose_before_step (startup sampleHost) (Reachable.start sampleHost) 1
    originEngine
  have h2 := tick_renders_pose_before_step (tick 1 originEngine (startup sampleHost))
    (Reachable.step (Action.tick 1 originEngine) (Reachable.start sampleHost)) 2 bumpEngine
  have hp0 : ({ box := 0, body := 1 } : Pair) ∈ (startup sampleHost).updatedValues := by
    simp [startup, startupScene, sampleHost, blank, createBox, newMesh, newBody, updateMesh,
      updateBody, sceneAdd, worldAdd, addEventListener, log, startupCreateBoxArgs, mathRandom]
  have hp1 : ({ box := 0, body := 1 } : Pair) ∈
      (tick 1 originEngine (startup sampleHost)).updatedValues := by
    rw [h1.2.1]
    exact hp0
  have hp2 : ({ box := 0, body := 1 } : Pair) ∈
      (tick 2 bumpEngine (tick 1 originEngine (startup sampleHost))).updatedValues := by
    rw [h2.2.1]
    exact hp1
  refine ⟨?_, ?_⟩
  · rw [(h2.2.2.2 _ hp2).1, (h1.2.2.2 _ hp1).2.2.1]
    rfl
  · rw [(h1.2.2.2 _ hp1).1]
    simp [startup, startupScene, sampleHost, blank, createBox, newMesh, newBody, updateMesh,
      updateBody, sceneAdd, worldAdd, addEventListener, log, startupCreateBoxArgs, mathRandom]

/-- C10: for n >= 1 ticks with non-negative, non-decreasing clock readings t_1 .. t_n, started
with `oldElapsedTime = 0`, the `world.step` calls are made with fixed step 1/60, 3 sub-steps and
deltas t_k - t_(k-1) (t_0 = 0); every delta is non-negative; after tick k the stored
`oldElapsedTime` is t_k; the deltas sum to t_n; and no tick changes the registry. -/
theorem tick_deltas_telescope (ticks : List (Rat × Engine)) (s : App)
    (hne : ticks ≠ []) (h0 : s.oldElapsedTime = 0)
    (hpos : ∀ t ∈ ticks.map Prod.fst, 0 ≤ t)
    (hmono : (ticks.map Prod.fst).Sorted (fun a b => a ≤ b)) :
    stepCalls (runTicks ticks s).trace =
      stepCalls s.trace ++
        List.zipWith (fun t prev => ((1 : Rat) / 60, t - prev, 3))
          (ticks.map Prod.fst) (0 :: ticks.map Prod.fst) ∧
    (∀ d ∈ List.zipWith (fun t prev => t - prev) (ticks.map Prod.fst)
        (0 :: ticks.map Prod.fst), 0 ≤ d) ∧
    (∀ (k : Nat) (hk : k < ticks.length),
      (runTicks (ticks.take (k + 1)) s).oldElapsedTime = (ticks.get ⟨k, hk⟩).1) ∧
    some (List.zipWith (fun t prev => t - prev) (ticks.map Prod.fst)
        (0 :: ticks.map Prod.fst)).sum = (ticks.map Prod.fst).getLast? ∧
    (∀ k : Nat, (runTicks (ticks.take k) s).updatedValues = s.updatedValues) ∧
    (∀ (t : Rat) (engine : Engine) (u : App),
      (tick t engine u).updatedValues = u.updatedValues) := by
  refine ⟨?_, ?_, ?_, ?_, ?_, ?_⟩
  · rw [(runTicks_clock ticks s).2.2, h0]
  · exact deltas_nonneg _ 0 hpos hmono
  · intro k hk
    rw [(runTicks_clock (ticks.take (k + 1)) s).1, List.take_succ, List.map_append]
    have hg : ticks[k]? = some (ticks.get ⟨k, hk⟩) := by
      simp [List.getElem?_eq_getElem hk]
    rw [hg]
    simp
  · rw [deltas_sum]
    have hm : ticks.map Prod.fst ≠ [] := by
      simpa using hne
    rw [List.getLast?_eq_getLast _ hm]
    simp
  · intro k
    exact (runTicks_clock (ticks.take k) s).2.1
  · intro t engine u
    exact (tick_clock t engine u).2.1

/-- Witness for C10: three ticks at clock readings 1/60, 1/30 and 1/10 on the startup state of
`sampleHost` pass the deltas 1/60, 1/60 and 1/15. -/
theorem tick_deltas_telescope_witness :
    stepCalls (runTicks [(1 / 60, originEngine), (1 / 30, bumpEngine), (1 / 10, originEngine)]
      (startup sampleHost)).trace =
      stepCalls (startup sampleHost).trace ++
        [(1 / 60, 1 / 60, 3), (1 / 60, 1 / 60, 3), (1 / 60, 1 / 15, 3)] ∧
    (runTicks [(1 / 60, originEngine), (1 / 30, bumpEngine), (1 / 10, originEngine)]
      (startup sampleHost)).updatedValues = (startup sampleHost).updatedValues := by
  have h := tick_deltas_telescope
    [(1 / 60, originEngine), (1 / 30, bumpEngine), (1 / 10, originEngine)]
    (startup sampleHost) (by simp) rfl
    (by intro t ht
        simp at ht
        rcases ht with ht | ht | ht <;> rw [ht] <;> norm_num)
    (by simp [List.Sorted]; norm_num)
  refine ⟨?_, ?_⟩
  · rw [h.1]
    simp
    norm_num
  · have h5 := h.2.2.2.2.1 3
    simpa using h5

end ThreePhysics
